import Mathlib

/-!
Shallow embedding of the A380-842 takeoff/landing performance calculator
(src/unnamed/part_001, src/fbw-a380x/.../a380x_takeoff.ts, a380x_landing.ts).

All machine numbers are modelled as exact rationals (ℚ).  The source is
IEEE-754 double code without overflow concerns in its working range, so ℚ is a
faithful model except for two points, each handled explicitly where it occurs:
* `Math.pow`/`Math.cos` (pressure-altitude from QNH, tailwind component) are
  transcendental; the embedding takes the corresponding intermediate value as
  an explicit argument and theorems quantify over it.
* the temperature/wind kernels return NaN for temperatures above tFlexMax;
  theorems carry the corresponding domain hypotheses, and inside the flex scan
  (where such temperatures arise structurally) the NaN effect is encoded by an
  explicit guard, as documented at `flexScan`.
-/

/-- JavaScript `Math.ceil` on a rational. -/
def jceil (q : ℚ) : ℤ := ⌈q⌉

/-- JavaScript `Math.round` on a rational: round half towards +∞. -/
def jround (q : ℚ) : ℤ := ⌊q + 1/2⌋

/-- JavaScript `Math.trunc` on a rational: round towards zero. -/
def jtrunc (q : ℚ) : ℤ := if q < 0 then ⌈q⌉ else ⌊q⌋

/-- JavaScript `%` (remainder, sign of the dividend) on rationals. -/
def jmod (x y : ℚ) : ℚ := x - y * (jtrunc (x / y) : ℚ)

/-- JavaScript `Math.sign` on a rational (no negative zero in ℚ). -/
def jsign (q : ℚ) : ℤ := if 0 < q then 1 else if q < 0 then -1 else 0

/-- Modelled from the spec: 1-D scalar lookup of the external
`LerpLookupTable.get` (the `@microsoft/msfs-sdk` source is not in this
repository).  Spec §4.1: breakpoints sorted ascending; keys outside the
table clamp to the endpoint value; interior keys interpolate linearly between
the two straddling breakpoints.  Entries are `(value, key)` pairs exactly as
written in the source tables. -/
def lerp1 : List (ℚ × ℚ) → ℚ → ℚ
  | [], _ => 0
  | [(v, _)], _ => v
  | (v0, k0) :: (v1, k1) :: rest, key =>
    if key ≤ k0 then v0
    else if key ≤ k1 then v0 + (v1 - v0) * (key - k0) / (k1 - k0)
    else lerp1 ((v1, k1) :: rest) key

/-- Modelled from the spec: 2-vector variant of `lerp1` for the external
`LerpVectorLookupTable.get` (spec §4.1: component-wise interpolation). -/
def lerpPair : List ((ℚ × ℚ) × ℚ) → ℚ → ℚ × ℚ
  | [], _ => (0, 0)
  | [(v, _)], _ => v
  | (v0, k0) :: (v1, k1) :: rest, key =>
    if key ≤ k0 then v0
    else if key ≤ k1 then
      let t := (key - k0) / (k1 - k0)
      (v0.1 + (v1.1 - v0.1) * t, v0.2 + (v1.2 - v0.2) * t)
    else lerpPair ((v1, k1) :: rest) key

/-- Modelled from the spec: 4-vector variant of `lerp1` for the external
`LerpVectorLookupTable.get` (spec §4.1: component-wise interpolation). -/
def lerp4 : List ((ℚ × ℚ × ℚ × ℚ) × ℚ) → ℚ → ℚ × ℚ × ℚ × ℚ
  | [], _ => (0, 0, 0, 0)
  | [(v, _)], _ => v
  | (v0, k0) :: (v1, k1) :: rest, key =>
    if key ≤ k0 then v0
    else if key ≤ k1 then
      let t := (key - k0) / (k1 - k0)
      (v0.1 + (v1.1 - v0.1) * t,
       v0.2.1 + (v1.2.1 - v0.2.1) * t,
       v0.2.2.1 + (v1.2.2.1 - v0.2.2.1) * t,
       v0.2.2.2 + (v1.2.2.2 - v0.2.2.2) * t)
    else lerp4 ((v1, k1) :: rest) key

/-- `computeCgPercentMAC` from a380x_takeoff.ts: CG position to %MAC. -/
def computeCgPercentMAC (cgPositionMeters macStartMeters macLengthMeters : ℚ) : ℚ :=
  ((cgPositionMeters - macStartMeters) / macLengthMeters) * 100

/-- Modelled from the spec: `MathUtils.lerp(x, x0, x1, y0, y1, clampStart,
clampEnd)` of the external `@microsoft/msfs-sdk` (source not in this
repository): linear map of `[x0, x1]` onto `[y0, y1]` with optional clamping
at either end of the domain (spec §4.1 clamped-interpolation contract). -/
def mathUtilsLerp (x x0 x1 y0 y1 : ℚ) (clampStart clampEnd : Bool) : ℚ :=
  let t := (x - x0) / (x1 - x0)
  let t1 := if clampStart then max t 0 else t
  let t2 := if clampEnd then min t1 1 else t1
  y0 + t2 * (y1 - y0)

/-- Modelled from the spec: `MathUtils.round(v, epsilon)` of the external
`@microsoft/msfs-sdk`: round to the nearest multiple of `epsilon`. -/
def mathUtilsRound (v epsilon : ℚ) : ℚ :=
  (jround (v / epsilon) : ℚ) * epsilon

/-- `calculateStabTrim` from src/unnamed/part_001 (lines 2564-2570): linear
CG-to-trim map from +3.8 at 29 %MAC to −2.5 at 43 %MAC, clamped at both ends,
rounded to the nearest 0.1. -/
def calculateStabTrim (cg : ℚ) : ℚ :=
  mathUtilsRound (mathUtilsLerp cg 29 43 3.8 (-2.5) true true) 0.1

/-- `CONF_FULL_VLS` from a380x_landing.ts. -/
def confFullVls : List ℚ := [140, 150, 160, 170, 180, 190, 200, 210, 220]

/-- `CONF3_VLS` from a380x_landing.ts. -/
def conf3Vls : List ℚ := [145, 155, 165, 175, 185, 195, 205, 215, 225]

/-- `getInterpolatedVlsTableValue` from a380x_landing.ts (lines 570-587). -/
def getInterpolatedVlsTableValue (mass : ℚ) (vlsSpeedTable : List ℚ) : ℚ :=
  let minWeight : ℚ := 270
  let maxWeight : ℚ := 512
  let weightIncrement : ℚ := (maxWeight - minWeight) / ((vlsSpeedTable.length : ℚ) - 1)
  let index : ℤ :=
    max 0 (min ((vlsSpeedTable.length : ℤ) - 1) (jceil ((mass - minWeight) / weightIncrement)))
  if index = 0 then vlsSpeedTable.headD 0
  else if (vlsSpeedTable.length : ℤ) - 1 ≤ index then vlsSpeedTable.getLastD 0
  else
    let lower := vlsSpeedTable.getD (index - 1).toNat 0
    let upper := vlsSpeedTable.getD index.toNat 0
    let oneTonSpeedIncrement := (upper - lower) / weightIncrement
    lower + oneTonSpeedIncrement * jmod (mass - minWeight) weightIncrement

/-- The clamped piecewise-linear interpolation of a VLS table over the
270…512 t range, as the spec describes it ("9-point interpolated table"):
breakpoint `i` sits at `270 + i·(242/8)` tonnes.  This is the spec-side
reading that claim C8 asserts `getInterpolatedVlsTableValue` implements;
it is compared against the code-side definition above. -/
def vlsSpecInterp (mass : ℚ) (vlsSpeedTable : List ℚ) : ℚ :=
  lerp1
    ((List.range vlsSpeedTable.length).map
      (fun i => (vlsSpeedTable.getD i 0, 270 + (i : ℚ) * (242 / 8))))
    mass

/-! ## Takeoff calculator data model (src/unnamed/part_001) -/

/-- `LimitingFactor` of the fbw-sdk.  Modelled from the spec: the enum itself
lives in the external `@flybywiresim/fbw-sdk`; spec §4.4 fixes the iteration /
tie-break order Runway < SecondSegment < BrakeEnergy < Vmcg, matching the
construction order of `result.limits` in the source. -/
inductive LimitingFactor where
  | runway | secondSegment | brakeEnergy | vmcg
  deriving DecidableEq, Repr

/-- `TakeoffAntiIceSetting` of the fbw-sdk. -/
inductive TakeoffAntiIceSetting where
  | off | engine | engineWing
  deriving DecidableEq, Repr

/-- `RunwayCondition` of the fbw-sdk. -/
inductive RunwayCondition where
  | dry | wet
  | contaminated6mmWater | contaminated13mmWater
  | contaminated6mmSlush | contaminated13mmSlush
  | contaminatedCompactedSnow
  | contaminated5mmWetSnow | contaminated15mmWetSnow | contaminated30mmWetSnow
  | contaminated10mmDrySnow | contaminated100mmDrySnow
  deriving DecidableEq, Repr

/-- `LineupAngle` of the fbw-sdk: 0°, 90° or 180°. -/
inductive LineupAngle where
  | deg0 | deg90 | deg180
  deriving DecidableEq, Repr

/-- `TakeoffPerfomanceError` of the fbw-sdk (source spelling kept). -/
inductive TakeoffPerfomanceError where
  | none | invalidData | structuralMtow | maximumPressureAlt | maximumTemperature
  | operatingEmptyWeight | cgOutOfLimits | maximumTailwind | maximumRunwaySlope
  | tooHeavy | tooLight | vmcgVmcaLimits | maximumTireSpeed
  deriving DecidableEq, Repr

/-- `TakeoffPerformanceInputs`: the raw request (qnh is not stored; the one
derived quantity that depends on it, the pressure altitude, is passed to the
calculation separately, see `mkParams`). -/
structure TakeoffInputs where
  tow : ℚ
  forwardCg : Bool
  cg : Option ℚ
  conf : ℕ
  tora : ℚ
  slope : ℚ
  lineupAngle : LineupAngle
  wind : ℚ
  elevation : ℚ
  oat : ℚ
  antiIce : TakeoffAntiIceSetting
  packs : Bool
  forceToga : Bool
  runwayCondition : RunwayCondition

/-- `TakeoffPerformanceParameters`: environment-derived intermediates. -/
structure TakeoffParams where
  adjustedTora : ℚ
  pressureAlt : ℚ
  isaTemp : ℚ
  tRef : ℚ
  tMax : ℚ
  tFlexMax : ℚ
  headwind : ℚ

/-- `LimitWeight` of the fbw-sdk: all intermediates of one limit family. -/
structure LimitWeight where
  baseLimit : ℚ
  deltaSlope : ℚ
  slopeLimit : ℚ
  deltaAlt : ℚ
  altLimit : ℚ
  oatDeltaTemp : ℚ
  oatDeltaWind : ℚ
  oatLimitNoBleed : ℚ
  oatLimit : ℚ
  tRefDeltaTemp : ℚ
  tRefDeltaWind : ℚ
  tRefLimitNoBleed : ℚ
  tRefLimit : ℚ
  tMaxDeltaTemp : ℚ
  tMaxDeltaWind : ℚ
  tMaxLimitNoBleed : ℚ
  tMaxLimit : ℚ
  tFlexMaxDeltaTemp : ℚ
  tFlexMaxDeltaWind : ℚ
  tFlexMaxLimitNoBleed : ℚ
  tFlexMaxLimit : ℚ

/-! ### Constant tables (src/unnamed/part_001, lines 105-403) -/

/-- `lineUpDistances` (part_001 line 105): metres consumed by lineup. -/
def lineUpDistance : LineupAngle → ℚ
  | .deg0 => 0
  | .deg90 => 32
  | .deg180 => 64

/-- `tRefTable` (part_001 line 116): Tref [°C] keyed by elevation [ft]. -/
def tRefTable : List (ℚ × ℚ) :=
  [(48, -2000), (44, 0), (43, 500), (42, 1000), (40, 2000), (36.4, 3000),
   (35, 3479), (16.4, 8348), (13.5, 9200)]

/-- `tMaxTable` (part_001 line 129): Tmax [°C] keyed by pressure alt [ft]. -/
def tMaxTable : List (ℚ × ℚ) := [(55, -2000), (55, 0), (38, 9200)]

/-- `runwayPerfLimitConf1` (part_001 line 141). -/
def runwayPerfLimitConf1 : List (ℚ × ℚ) :=
  [(349600, 1000), (384264, 1219), (445176, 1604), (490536, 1959), (512000, 2134),
   (512000, 2239), (512000, 2459), (512000, 2559), (512000, 2709), (512000, 2918),
   (512000, 3000), (512000, 3180), (512000, 3800), (512000, 5000)]

/-- `runwayPerfLimitConf2` (part_001 line 159). -/
def runwayPerfLimitConf2 : List (ℚ × ℚ) :=
  [(353160, 1000), (392040, 1219), (460080, 1604), (508032, 1959), (512000, 2134),
   (512000, 2239), (512000, 2459), (512000, 2709), (512000, 2879), (512000, 2987),
   (512000, 3600), (512000, 3800), (512000, 3900), (512000, 5000)]

/-- `runwayPerfLimitConf3` (part_001 line 177). -/
def runwayPerfLimitConf3 : List (ℚ × ℚ) :=
  [(344088, 1000), (390096, 1219), (470448, 1604), (512000, 1959), (512000, 2134),
   (512000, 2239), (512000, 2459), (512000, 2709), (512000, 2839), (512000, 3180),
   (512000, 3800), (512000, 5000)]

/-- `runwaySlopeFactor` (part_001 line 197).  The source `Record<number, _>`
tables are only ever read at conf ∈ {1,2,3} (enforced by `checkInputs`); the
catch-all arm is arbitrary. -/
def runwaySlopeFactor : ℕ → ℚ
  | 1 => 0.00084 | 2 => 0.00096 | 3 => 0.0011 | _ => 0

/-- `runwayPressureAltFactor` (part_001 line 208). -/
def runwayPressureAltFactor : ℕ → ℚ × ℚ
  | 1 => (3.43e-8, 0.001192) | 2 => (1.15e-8, 0.001216) | 3 => (-4.6e-9, 0.001245) | _ => (0, 0)

/-- `runwayTemperatureFactor` (part_001 line 219). -/
def runwayTemperatureFactor : ℕ → ℚ × ℚ × ℚ × ℚ × ℚ × ℚ
  | 1 => (0.00001, 0.095175, 0.000207, 0.040242, 0.00024, 0.066189)
  | 2 => (-0.00001, 0.131948, 0.000155, 0.162938, 0.000225, 0.150363)
  | 3 => (-0.0000438, 0.198845, 0.000188, 0.14547, 0.0002, 0.232529)
  | _ => (0, 0, 0, 0, 0, 0)

/-- `runwayHeadWindFactor` (part_001 line 230). -/
def runwayHeadWindFactor : ℕ → ℚ × ℚ × ℚ × ℚ
  | 1 => (0.000029, -0.233075, 0.00242, 0.003772)
  | 2 => (0.000051, -0.277863, 0.0018, 0.003366)
  | 3 => (0.000115, -0.3951, 0.002357, 0.002125)
  | _ => (0, 0, 0, 0)

/-- `runwayTailWindFactor` (part_001 line 237). -/
def runwayTailWindFactor : ℕ → ℚ × ℚ × ℚ × ℚ
  | 1 => (0.000065, -0.684701, 0.00498, 0.0808)
  | 2 => (0.000198, -1.017, 0.00711, 0.009)
  | 3 => (0.000271, -1.11506, 0.0078, 0.00875)
  | _ => (0, 0, 0, 0)

/-- `secondSegmentBaseFactor` (part_001 line 248). -/
def secondSegmentBaseFactor : ℕ → ℚ × ℚ
  | 1 => (0.00391, 75.366) | 2 => (0.005465, 72.227) | 3 => (0.00495, 72.256) | _ => (0, 0)

/-- `secondSegmentSlopeFactor` (part_001 line 255). -/
def secondSegmentSlopeFactor : ℕ → ℚ
  | 1 => 0.000419 | 2 => 0.000641 | 3 => 0.000459 | _ => 0

/-- `secondSegmentPressureAltFactor` (part_001 line 262). -/
def secondSegmentPressureAltFactor : ℕ → ℚ × ℚ
  | 1 => (-6.5e-8, 0.001769) | 2 => (1.05e-7, 0.00055) | 3 => (7.48e-8, 0.000506) | _ => (0, 0)

/-- `secondSegmentTemperatureFactor` (part_001 line 269). -/
def secondSegmentTemperatureFactor : ℕ → ℚ × ℚ × ℚ × ℚ × ℚ × ℚ
  | 1 => (0.000025, 0.001, 0.000155, 0.211445, 0.000071, 0.556741)
  | 2 => (0.0000121, 0.042153, 0.0001256, 0.325925, 0.000082, 0.546259)
  | 3 => (-0.0000294, 0.13903, 0.0000693, 0.480536, 0.000133, 0.480536)
  | _ => (0, 0, 0, 0, 0, 0)

/-- `secondSegmentHeadWindFactor` (part_001 line 276). -/
def secondSegmentHeadWindFactor : ℕ → ℚ × ℚ × ℚ × ℚ
  | 1 => (0.000019, -0.13052, 0.000813636, 0.000145238)
  | 2 => (0.0000454, -0.20585, 0.000416667, 0.001778293)
  | 3 => (0.000085, -0.30209, 0.001189394, 0.0038996)
  | _ => (0, 0, 0, 0)

/-- `secondSegmentTailWindFactor` (part_001 line 283). -/
def secondSegmentTailWindFactor : ℕ → ℚ × ℚ × ℚ × ℚ
  | 1 => (0.000104, -0.705693, 0.009, 0.00648)
  | 2 => (0.000154, -0.8052, 0.009, 0.002444)
  | 3 => (0.000054, -0.462, 0.00875, 0.006606505)
  | _ => (0, 0, 0, 0)

/-- `brakeEnergyBaseFactor` (part_001 line 294). -/
def brakeEnergyBaseFactor : ℕ → ℚ × ℚ
  | 1 => (0.00503, 72.524) | 2 => (0.00672, 68.28) | 3 => (0.00128, 83.951) | _ => (0, 0)

/-- `brakeEnergySlopeFactor` (part_001 line 301). -/
def brakeEnergySlopeFactor : ℕ → ℚ
  | 1 => 0.000045 | 2 => 0.000068 | 3 => 0.000045 | _ => 0

/-- `brakeEnergyPressureAltFactor` (part_001 line 308). -/
def brakeEnergyPressureAltFactor : ℕ → ℚ × ℚ
  | 1 => (5.5e-8, 0.000968) | 2 => (1.17e-7, 0.000595) | 3 => (4.65e-8, 0.000658) | _ => (0, 0)

/-- `brakeEnergyTemperatureFactor` (part_001 line 315). -/
def brakeEnergyTemperatureFactor : ℕ → ℚ × ℚ
  | 1 => (0.06, 0.54) | 2 => (0.058, 0.545) | 3 => (0.04642, 0.6) | _ => (0, 0)

/-- `brakeEnergyHeadWindFactor` (part_001 line 322). -/
def brakeEnergyHeadWindFactor : ℕ → ℚ × ℚ × ℚ × ℚ
  | 1 => (0.0000311, -0.1769, 0.001125, 0)
  | 2 => (0.0000316, -0.1799, 0.001182, 0)
  | 3 => (0.0000147, -0.0928, 0.001111, 0)
  | _ => (0, 0, 0, 0)

/-- `brakeEnergyTailWindFactor` (part_001 line 329). -/
def brakeEnergyTailWindFactor : ℕ → ℚ × ℚ × ℚ × ℚ
  | 1 => (0.000117, -0.8024, 0.0117879, 0.006667)
  | 2 => (0.000157, -0.849, 0.0066818, 0.006667)
  | 3 => (0.00013, -0.6946, 0.0068333, 0.006667)
  | _ => (0, 0, 0, 0)

/-- `vmcgBaseFactor` (part_001 line 340). -/
def vmcgBaseFactor : ℕ → ℚ × ℚ
  | 1 => (0.0644, -19.526) | 2 => (0.082005, -39.27) | 3 => (0.0704, -25.6868) | _ => (0, 0)

/-- `vmcgSlopeFactor` (part_001 line 347). -/
def vmcgSlopeFactor : ℕ → ℚ
  | 1 => 0.00084 | 2 => 0.001054 | 3 => 0.001068 | _ => 0

/-- `vmcgPressureAltFactor` (part_001 line 354). -/
def vmcgPressureAltFactor : ℕ → ℚ × ℚ
  | 1 => (-8.35e-7, 0.00589) | 2 => (-7.58e-7, 0.00703) | 3 => (1.95e-7, 0.00266) | _ => (0, 0)

/-- `vmcgTemperatureFactor` (part_001 line 361). -/
def vmcgTemperatureFactor : ℕ → ℚ × ℚ × ℚ × ℚ × ℚ × ℚ
  | 1 => (-0.00133, 2.104, 0.000699, -0.128144, -0.000718, 1.8103)
  | 2 => (-0.00097, 1.613, 0.000242, 0.462005, -0.000547, 1.603)
  | 3 => (-0.000923, 1.6087, 0.00061, 0.002239, -0.000335, 1.2716)
  | _ => (0, 0, 0, 0, 0, 0)

/-- `vmcgHeadWindFactor` (part_001 line 368): 8-tuple per config. -/
def vmcgHeadWindFactor : ℕ → ℚ × ℚ × ℚ × ℚ × ℚ × ℚ × ℚ × ℚ
  | 1 => (0.001198, -1.80539, 0.000097, -0.15121, -0.000255, 0.337391, 0.000066, -0.079718)
  | 2 => (0.000697, -1.17473, 0.000031, -0.057504, -0.000184, 0.246185, 0.000012, 0.0216)
  | 3 => (0.0023, -3.468, -0.000037, 0.033946, -0.000156, 0.213953, -0.000757, 1.094)
  | _ => (0, 0, 0, 0, 0, 0, 0, 0)

/-- `vmcgTailWindFactor` (part_001 line 375): 6-tuple per config. -/
def vmcgTailWindFactor : ℕ → ℚ × ℚ × ℚ × ℚ × ℚ × ℚ
  | 1 => (0.00218, -5.489, -0.000106, 0.145473, 0.031431, -0.0356)
  | 2 => (0.001892, -5.646, -0.000059, 0.079539, 0.009948, -0.010763)
  | 3 => (0.000613, -3.165, -0.000022, 0.020622, 0.049286, -0.0396)
  | _ => (0, 0, 0, 0, 0, 0)

/-- `takeoffCgLimits` (part_001 line 391): (lower, upper) %MAC keyed by TOW. -/
def takeoffCgLimits : List ((ℚ × ℚ) × ℚ) :=
  [((29, 43), 270000), ((29, 43), 375000), ((29, 43), 510000), ((29, 43), 512000)]

/-- `cgFactors` (part_001 line 399). -/
def cgFactors : ℕ → ℚ × ℚ
  | 1 => (-0.041448, 3.357) | 2 => (-0.03277, 2.686) | 3 => (-0.0249, 2.086) | _ => (0, 0)

/-- `tvmcgFactors` (part_001 line 1191): (a, b) keyed by headwind. -/
def tvmcgFactors : ℕ → List ((ℚ × ℚ) × ℚ)
  | 1 => [((0.06485, -99.47), -15), ((0.9895, -116.54), 0), ((0.13858, -171.15), 10)]
  | 2 => [((0.06573, -102.97), -15), ((0.10579, -132.96), 0), ((0.06575, -64.4), 10)]
  | 3 => [((0.07002, -106.62), -15), ((0.08804, -108.42), 0), ((0.07728, -82.08), 10)]
  | _ => []

/-- `wetTowAdjustmentFactorsAtOrBelowTvmcg` (part_001 line 1213). -/
def wetTowAdjustmentFactorsAtOrBelowTvmcg : ℕ → List ((ℚ × ℚ × ℚ × ℚ) × ℚ)
  | 1 => [((0.05498, -126.98, 0.00903, -28.35), -15), ((0.02391, -48.94, 0.00043, -1.64), 0),
          ((0.01044, -21.53, 0.00022, -1.12), 10)]
  | 2 => [((0.03856, -94.674, 0.00965, -30.09), -15), ((0.02686, -48.63, -0.00011, -0.08), 0),
          ((0.00057, -2.94, -0.00004, -0.13), 10)]
  | 3 => [((0.01924, -57.58, 0, 0), -15), ((0.02184, -44.91, -0.00019, 0.1), 0),
          ((0.00057, -2.94, 0.00047, -1.6), 10)]
  | _ => []

/-- `wetTowAdjustmentFactorsAboveTvmcg` (part_001 line 1235). -/
def wetTowAdjustmentFactorsAboveTvmcg : ℕ → List ((ℚ × ℚ × ℚ × ℚ) × ℚ)
  | 1 => [((0.0197, -61.23, 0, 0), -15), ((0.01887, -48.47, 0, 0), 0), ((0.045, -86.32, 0, 0), 10)]
  | 2 => [((0.01941, -60.02, 0, 0), -15), ((0.02797, -61.99, 0, 0), 0), ((0.03129, -63.61, 0, 0), 10)]
  | 3 => [((0.01978, -61.43, 0, 0), -15), ((0.02765, -61.88, 0, 0), 0), ((0.03662, -72.45, 0, 0), 10)]
  | _ => []

/-- `wetFlexAdjustmentFactorsAtOrBelowTvmcg` (part_001 line 1257). -/
def wetFlexAdjustmentFactorsAtOrBelowTvmcg : ℕ → List ((ℚ × ℚ × ℚ × ℚ) × ℚ)
  | 1 => [((0.07933, -190.57, 0.02074, -65.05), -15), ((0.04331, -90.86, 0.00098, -3.88), 0),
          ((0.0233, -48.8, 0.00072, -3.14), 10)]
  | 2 => [((0.029, -89.9, 0.0099, -38.42), -15), ((0.03845, -80.2, -1, 0), 0),
          ((0.00167, -7.01, 0.000266, -1.61), 10)]
  | 3 => [((0.03993, -94.09, 0, 0), -15), ((0.03845, -80.2, -1, 0), 0),
          ((0.00835, -18.34, -1, 0), 10)]
  | _ => []

/-- `wetFlexAdjustmentFactorsAboveTvmcg` (part_001 line 1279). -/
def wetFlexAdjustmentFactorsAboveTvmcg : ℕ → List ((ℚ × ℚ × ℚ × ℚ) × ℚ)
  | 1 => [((-0.03716, 31.85, 0.08618, -234.92), -15), ((-0.05861, 51.01, 0.04322, -113.39), 0),
          ((0.1012, -195.48, 0, 0), 10)]
  | 2 => [((-0.0285, 19.43, 0.06951, -193.38), -15), ((-0.04698, 37.58, 0.06438, -139.9), 0),
          ((0.06159, -126.56, 0, 0), 10)]
  | 3 => [((-0.0024, 4.25, -0.02118, 46.2), -15), ((-0.02645, 9.81, 0.06116, -131.79), 0),
          ((0.04841, -104.22, 0, 0), 10)]
  | _ => []

/-! ### Environment resolver (part_001 lines 2497-2556) -/

/-- `calculateIsaTemp` (part_001 line 2502). -/
def calculateIsaTemp (elevation : ℚ) : ℚ := 15 - elevation * 0.0019812

/-- `calculateTref` (part_001 line 2511). -/
def calculateTref (elevation : ℚ) : ℚ := lerp1 tRefTable elevation

/-- `calculateTmax` (part_001 line 2520). -/
def calculateTmax (pressureAlt : ℚ) : ℚ := lerp1 tMaxTable pressureAlt

/-- `calculateTflexMax` (part_001 line 2529): ISA + 59 °C. -/
def calculateTflexMax (isa : ℚ) : ℚ := isa + 59

/-- The parameter block built at the top of `calculateTakeoffPerformance`
(part_001 lines 2370-2385).  The source computes
`pressureAlt = elevation + 145442.15·(1 − (qnh/1013.25)^0.190263)`
(`calculatePressureAltitude`, line 2539); the real power is transcendental and
not representable in ℚ, so the embedding takes the resulting pressure altitude
as an argument and theorems quantify over it.  At qnh = 1013.25 the source
value is exactly the elevation (spec §8), which is how concrete instances are
chosen. -/
def mkParams (inputs : TakeoffInputs) (pressureAlt : ℚ) : TakeoffParams :=
  { adjustedTora := inputs.tora - lineUpDistance inputs.lineupAngle
    pressureAlt := pressureAlt
    isaTemp := calculateIsaTemp inputs.elevation
    tRef := calculateTref inputs.elevation
    tMax := calculateTmax pressureAlt
    tFlexMax := calculateTflexMax (calculateIsaTemp inputs.elevation)
    headwind := min 45 inputs.wind }

/-- `isCgWithinLimits` (part_001 line 2264). -/
def isCgWithinLimits (cg tow : ℚ) : Bool :=
  let cgLimits := lerpPair takeoffCgLimits tow
  decide (cgLimits.1 ≤ cg) && decide (cg ≤ cgLimits.2)

/-- `checkInputs` (part_001 lines 2276-2321): input validation, first failing
check wins.  Constants: structural MTOW 512 000 kg, max pressure alt 9 200 ft,
OEW 300 007 kg, max tailwind 15 kt, max |slope| 2 %. -/
def checkInputs (inputs : TakeoffInputs) (params : TakeoffParams) : TakeoffPerfomanceError :=
  if inputs.conf ≠ 1 ∧ inputs.conf ≠ 2 ∧ inputs.conf ≠ 3 then .invalidData
  else if inputs.tow > 512000 then .structuralMtow
  else if params.pressureAlt > 9200 then .maximumPressureAlt
  else if inputs.oat > params.tMax then .maximumTemperature
  else if inputs.tow < 300007 then .operatingEmptyWeight
  else if h : inputs.cg.isSome then
    if ¬ isCgWithinLimits (inputs.cg.get h) inputs.tow then .cgOutOfLimits
    else if inputs.wind < -15 then .maximumTailwind
    else if |inputs.slope| > 2 then .maximumRunwaySlope
    else .none
  else if inputs.wind < -15 then .maximumTailwind
  else if |inputs.slope| > 2 then .maximumRunwaySlope
  else .none

/-! ### Correction kernels (part_001 lines 2794-3061).

The source kernels return NaN when `temp > tFlexMax` (their first statement).
NaN has no ℚ counterpart: the embedded kernels omit that branch, every theorem
about them carries the corresponding `≤ tFlexMax` domain hypotheses for the
anchors at which they are evaluated, and `flexScan` re-encodes the NaN effect
where the scan structurally leaves the domain. -/

/-- `calculateRunwayTempDelta` (part_001 line 2795), finite domain. -/
def calculateRunwayTempDelta (temp : ℚ) (conf : ℕ) (tRef tMax _tFlexMax runwayLength pressureAlt isaTemp : ℚ) : ℚ :=
  let (c0, c1, c2, c3, c4, c5) := runwayTemperatureFactor conf
  let runwayAltFactor := runwayLength - pressureAlt / 12
  let d0 := 1000 * (runwayAltFactor * c0 + c1) * (min temp tRef - isaTemp)
  let d1 := if temp > tRef then d0 + 1000 * (runwayAltFactor * c2 + c3) * (min temp tMax - tRef) else d0
  if temp > tMax then d1 + 1000 * (runwayAltFactor * c4 + c5) * (temp - tMax) else d1

/-- `calculateSecondSegmentTempDelta` (part_001 line 2823), finite domain. -/
def calculateSecondSegmentTempDelta (temp : ℚ) (conf : ℕ) (tRef tMax _tFlexMax runwayLength pressureAlt isaTemp : ℚ) : ℚ :=
  let (c0, c1, c2, c3, c4, c5) := secondSegmentTemperatureFactor conf
  let d0 := 1000 * ((runwayLength - pressureAlt / 5) * c0 + c1) * (min temp tRef - isaTemp)
  let d1 := if temp > tRef then d0 + 1000 * ((runwayLength - pressureAlt / 5) * c2 + c3) * (min temp tMax - tRef) else d0
  if temp > tMax then d1 + 1000 * ((runwayLength - pressureAlt / 5) * c4 + c5) * (temp - tMax) else d1

/-- `calculateBrakeEnergyTempDelta` (part_001 line 2852), finite domain: uses
constant coefficients and has no above-Tmax term. -/
def calculateBrakeEnergyTempDelta (temp : ℚ) (conf : ℕ) (tRef tMax _tFlexMax _runwayLength _pressureAlt isaTemp : ℚ) : ℚ :=
  let (c0, c1) := brakeEnergyTemperatureFactor conf
  let d0 := 1000 * c0 * (min temp tRef - isaTemp)
  if temp > tRef then d0 + 1000 * c1 * (min temp tMax - tRef) else d0

/-- `calculateVmcgTempDelta` (part_001 line 2877), finite domain. -/
def calculateVmcgTempDelta (temp : ℚ) (conf : ℕ) (tRef tMax _tFlexMax runwayLength _pressureAlt isaTemp : ℚ) : ℚ :=
  let (c0, c1, c2, c3, c4, c5) := vmcgTemperatureFactor conf
  let d0 := 1000 * (runwayLength * c0 + c1) * (min temp tRef - isaTemp)
  let d1 := if temp > tRef then d0 + 1000 * (runwayLength * c2 + c3) * (min temp tMax - tRef) else d0
  if temp > tMax then d1 + 1000 * (runwayLength * c4 + c5) * (temp - tMax) else d1

/-- Common body of the Runway/SecondSegment/BrakeEnergy wind kernels
(part_001 lines 2908-3008), finite domain: pick the head- or tail-wind
quadruple by the sign of the wind, sum the conditional terms, and zero the
result if it has the same sign as the wind (edge-of-table guard). -/
def windDeltaWith (head tail : ℕ → ℚ × ℚ × ℚ × ℚ) (temp : ℚ) (conf : ℕ)
    (tRef tMax runwayLength wind : ℚ) : ℚ :=
  let (w0, w1, w2, w3) := if wind ≥ 0 then head conf else tail conf
  let d0 := 1000 * (runwayLength * w0 + w1) * wind
  let d1 := if temp > tRef then d0 + 1000 * w2 * wind * (min temp tMax - tRef) else d0
  let d2 := if temp > tMax then d1 + 1000 * w3 * wind * (temp - tMax) else d1
  if jsign d2 = jsign wind then 0 else d2

/-- `calculateRunwayWindDelta` (part_001 line 2908), finite domain. -/
def calculateRunwayWindDelta (temp : ℚ) (conf : ℕ) (_isaTemp tRef tMax _tFlexMax runwayLength wind : ℚ) : ℚ :=
  windDeltaWith runwayHeadWindFactor runwayTailWindFactor temp conf tRef tMax runwayLength wind

/-- `calculateSecondSegmentWindDelta` (part_001 line 2943), finite domain. -/
def calculateSecondSegmentWindDelta (temp : ℚ) (conf : ℕ) (_isaTemp tRef tMax _tFlexMax runwayLength wind : ℚ) : ℚ :=
  windDeltaWith secondSegmentHeadWindFactor secondSegmentTailWindFactor temp conf tRef tMax runwayLength wind

/-- `calculateBrakeEnergyWindDelta` (part_001 line 2977), finite domain. -/
def calculateBrakeEnergyWindDelta (temp : ℚ) (conf : ℕ) (_isaTemp tRef tMax _tFlexMax runwayLength wind : ℚ) : ℚ :=
  windDeltaWith brakeEnergyHeadWindFactor brakeEnergyTailWindFactor temp conf tRef tMax runwayLength wind

/-- `calculateVmcgWindDelta` (part_001 line 3011), finite domain: 8-tuple for
headwind (with an ISA-to-tRef segment and a `temp ≥ tMax` comparison), 6-tuple
for tailwind. -/
def calculateVmcgWindDelta (temp : ℚ) (conf : ℕ) (isaTemp tRef tMax _tFlexMax runwayLength wind : ℚ) : ℚ :=
  let d2 :=
    if wind ≥ 0 then
      let (w0, w1, w2, w3, w4, w5, w6, w7) := vmcgHeadWindFactor conf
      let d0 := 1000 * (runwayLength * w0 + w1) * wind
      let da := if temp > isaTemp then d0 + 1000 * (runwayLength * w2 + w3) * wind * (min temp tRef - isaTemp) else d0
      let db := if temp > tRef then da + 1000 * (runwayLength * w4 + w5) * wind * (min temp tMax - tRef) else da
      if temp ≥ tMax then db + 1000 * (runwayLength * w6 + w7) * wind * (temp - tMax) else db
    else
      let (w0, w1, w2, w3, w4, w5) := vmcgTailWindFactor conf
      let d0 := 1000 * (runwayLength * w0 + w1) * wind
      let da := if temp > isaTemp then d0 + 1000 * (runwayLength * w2 + w3) * wind * (min temp tRef - isaTemp) else d0
      let db := if temp > tRef then da + 1000 * w4 * wind * (min temp tMax - tRef) else da
      if temp > tMax then db + 1000 * w5 * wind * (temp - tMax) else db
  if jsign d2 = jsign wind then 0 else d2

/-! ### Limit-weight solver (part_001 lines 2576-2788) -/

/-- `calculateBaseRunwayPerfLimit` (part_001 line 2772); the source returns
NaN for other configs, which `checkInputs` excludes. -/
def calculateBaseRunwayPerfLimit (length : ℚ) (conf : ℕ) : ℚ :=
  match conf with
  | 1 => lerp1 runwayPerfLimitConf1 length
  | 2 => lerp1 runwayPerfLimitConf2 length
  | 3 => lerp1 runwayPerfLimitConf3 length
  | _ => 0

/-- `calculateBaseLimit` (part_001 line 2785): `1000·(length·f1 + f2)`. -/
def calculateBaseLimit (length : ℚ) (conf : ℕ) (factors : ℕ → ℚ × ℚ) : ℚ :=
  let (factor1, factor2) := factors conf
  1000 * (length * factor1 + factor2)

/-- Body of `calculateWeightLimits` (part_001 lines 2576-2742) after the
factor switch has selected the family-specific base, slope and altitude
coefficients and the temperature/wind kernels. -/
def calculateWeightLimitsWith (inputs : TakeoffInputs) (params : TakeoffParams)
    (base : ℚ) (slopeFactor : ℚ) (altFactors : ℚ × ℚ)
    (tempDeltaFunc : ℚ → ℚ) (windDeltaFunc : ℚ → ℚ) : LimitWeight :=
  let deltaSlope := 1000 * slopeFactor * params.adjustedTora * inputs.slope
  let slopeLimit := base - deltaSlope
  let deltaAlt := 1000 * params.pressureAlt * (params.pressureAlt * altFactors.1 + altFactors.2)
  let altLimit := slopeLimit - deltaAlt
  let deltaBleed : ℚ :=
    (if inputs.antiIce = .engineWing then 10368 else 0) + (if inputs.packs then 9720 else 0)
  let oatDeltaTemp := tempDeltaFunc inputs.oat
  let oatDeltaWind := windDeltaFunc inputs.oat
  let oatLimitNoBleed := altLimit - oatDeltaTemp - oatDeltaWind
  let tRefDeltaTemp := tempDeltaFunc params.tRef
  let tRefDeltaWind := windDeltaFunc params.tRef
  let tRefLimitNoBleed := altLimit - tRefDeltaTemp - tRefDeltaWind
  let tMaxDeltaTemp := tempDeltaFunc params.tMax
  let tMaxDeltaWind := windDeltaFunc params.tMax
  let tMaxLimitNoBleed := altLimit - tMaxDeltaTemp - tMaxDeltaWind
  let tFlexMaxDeltaTemp := tempDeltaFunc params.tFlexMax
  let tFlexMaxDeltaWind := windDeltaFunc params.tFlexMax
  let tFlexMaxLimitNoBleed := altLimit - tFlexMaxDeltaTemp - tFlexMaxDeltaWind
  { baseLimit := base
    deltaSlope := deltaSlope
    slopeLimit := slopeLimit
    deltaAlt := deltaAlt
    altLimit := altLimit
    oatDeltaTemp := oatDeltaTemp
    oatDeltaWind := oatDeltaWind
    oatLimitNoBleed := oatLimitNoBleed
    oatLimit := oatLimitNoBleed - deltaBleed
    tRefDeltaTemp := tRefDeltaTemp
    tRefDeltaWind := tRefDeltaWind
    tRefLimitNoBleed := tRefLimitNoBleed
    tRefLimit := tRefLimitNoBleed - deltaBleed
    tMaxDeltaTemp := tMaxDeltaTemp
    tMaxDeltaWind := tMaxDeltaWind
    tMaxLimitNoBleed := tMaxLimitNoBleed
    tMaxLimit := tMaxLimitNoBleed - deltaBleed
    tFlexMaxDeltaTemp := tFlexMaxDeltaTemp
    tFlexMaxDeltaWind := tFlexMaxDeltaWind
    tFlexMaxLimitNoBleed := tFlexMaxLimitNoBleed
    tFlexMaxLimit := tFlexMaxLimitNoBleed - deltaBleed }

/-- `calculateWeightLimits` (part_001 lines 2576-2742): per-family limit
weights at the four temperature anchors. -/
def calculateWeightLimits (limitingFactor : LimitingFactor)
    (inputs : TakeoffInputs) (params : TakeoffParams) : LimitWeight :=
  let conf := inputs.conf
  let at' := params.adjustedTora
  let pa := params.pressureAlt
  let isa := params.isaTemp
  match limitingFactor with
  | .runway =>
    calculateWeightLimitsWith inputs params
      (calculateBaseRunwayPerfLimit at' conf)
      (runwaySlopeFactor conf) (runwayPressureAltFactor conf)
      (fun t => calculateRunwayTempDelta t conf params.tRef params.tMax params.tFlexMax at' pa isa)
      (fun t => calculateRunwayWindDelta t conf isa params.tRef params.tMax params.tFlexMax at' params.headwind)
  | .secondSegment =>
    calculateWeightLimitsWith inputs params
      (calculateBaseLimit at' conf secondSegmentBaseFactor)
      (secondSegmentSlopeFactor conf) (secondSegmentPressureAltFactor conf)
      (fun t => calculateSecondSegmentTempDelta t conf params.tRef params.tMax params.tFlexMax at' pa isa)
      (fun t => calculateSecondSegmentWindDelta t conf isa params.tRef params.tMax params.tFlexMax at' params.headwind)
  | .brakeEnergy =>
    calculateWeightLimitsWith inputs params
      (calculateBaseLimit at' conf brakeEnergyBaseFactor)
      (brakeEnergySlopeFactor conf) (brakeEnergyPressureAltFactor conf)
      (fun t => calculateBrakeEnergyTempDelta t conf params.tRef params.tMax params.tFlexMax at' pa isa)
      (fun t => calculateBrakeEnergyWindDelta t conf isa params.tRef params.tMax params.tFlexMax at' params.headwind)
  | .vmcg =>
    calculateWeightLimitsWith inputs params
      (calculateBaseLimit at' conf vmcgBaseFactor)
      (vmcgSlopeFactor conf) (vmcgPressureAltFactor conf)
      (fun t => calculateVmcgTempDelta t conf params.tRef params.tMax params.tFlexMax at' pa isa)
      (fun t => calculateVmcgWindDelta t conf isa params.tRef params.tMax params.tFlexMax at' params.headwind)

/-- The per-family slope coefficient selected by the switch of
`calculateWeightLimits` (part_001 lines 2592-2619). -/
def slopeFactorFor (f : LimitingFactor) (conf : ℕ) : ℚ :=
  match f with
  | .runway => runwaySlopeFactor conf
  | .secondSegment => secondSegmentSlopeFactor conf
  | .brakeEnergy => brakeEnergySlopeFactor conf
  | .vmcg => vmcgSlopeFactor conf

/-- `getLimitingFactor` (part_001 lines 2750-2770): running minimum, strict
`<`, over the families in the fixed order Runway, SecondSegment, BrakeEnergy,
Vmcg (first minimum wins on ties); `w` gives the limit weight of a family at
the anchor under consideration. -/
def getLimitingFactor (w : LimitingFactor → ℚ) : LimitingFactor :=
  let best1 : LimitingFactor × ℚ := (.runway, w .runway)
  let best2 := if w .secondSegment < best1.2 then (LimitingFactor.secondSegment, w .secondSegment) else best1
  let best3 := if w .brakeEnergy < best2.2 then (LimitingFactor.brakeEnergy, w .brakeEnergy) else best2
  let best4 := if w .vmcg < best3.2 then (LimitingFactor.vmcg, w .vmcg) else best3
  best4.1

/-- `result.oatLimitingFactor` (part_001 line 2397). -/
def oatLimitingFactor (inputs : TakeoffInputs) (params : TakeoffParams) : LimitingFactor :=
  getLimitingFactor (fun f => (calculateWeightLimits f inputs params).oatLimit)

/-- `result.tRefLimitingFactor` (part_001 line 2398). -/
def tRefLimitingFactor (inputs : TakeoffInputs) (params : TakeoffParams) : LimitingFactor :=
  getLimitingFactor (fun f => (calculateWeightLimits f inputs params).tRefLimit)

/-- `result.tMaxLimitingFactor` (part_001 line 2399). -/
def tMaxLimitingFactor (inputs : TakeoffInputs) (params : TakeoffParams) : LimitingFactor :=
  getLimitingFactor (fun f => (calculateWeightLimits f inputs params).tMaxLimit)

/-- `result.tFlexMaxLimitingFactor` (part_001 line 2400). -/
def tFlexMaxLimitingFactor (inputs : TakeoffInputs) (params : TakeoffParams) : LimitingFactor :=
  getLimitingFactor (fun f => (calculateWeightLimits f inputs params).tFlexMaxLimit)

/-- `dryMtow` (part_001 line 2402): the `oatLimit` of the factor governing the
**tRef** anchor (note: not the OAT anchor). -/
def dryMtowOf (inputs : TakeoffInputs) (params : TakeoffParams) : ℚ :=
  (calculateWeightLimits (tRefLimitingFactor inputs params) inputs params).oatLimit

/-- `calculateTvmcg` (part_001 lines 2549-2556). -/
def calculateTvmcg (inputs : TakeoffInputs) (params : TakeoffParams) : ℚ :=
  let fs := lerpPair (tvmcgFactors inputs.conf) (max params.headwind (-15))
  fs.1 * (params.adjustedTora - params.pressureAlt / 10) + fs.2

/-- The wet-runway MTOW adjustment (part_001 lines 2408-2420): pick the
above/at-or-below-Tvmcg factor table, look it up at the headwind, and take
`Math.min(0, f0·L + f1, f2·L + f3)` with `L = adjustedTora − pressureAlt/20`. -/
def wetMtowAdjustment (inputs : TakeoffInputs) (params : TakeoffParams) (tvmcg : ℚ) : ℚ :=
  let factors :=
    lerp4 ((if inputs.oat > tvmcg then wetTowAdjustmentFactorsAboveTvmcg
            else wetTowAdjustmentFactorsAtOrBelowTvmcg) inputs.conf) params.headwind
  let (f0, f1, f2, f3) := factors
  let lengthAltCoef := params.adjustedTora - params.pressureAlt / 20
  min 0 (min (f0 * lengthAltCoef + f1) (f2 * lengthAltCoef + f3))

/-- The wet-runway flex adjustment (part_001 lines 3220-3232), same shape as
`wetMtowAdjustment` but with the flex factor tables. -/
def wetFlexAdjustment (inputs : TakeoffInputs) (params : TakeoffParams) (tvmcg : ℚ) : ℚ :=
  let factors :=
    lerp4 ((if inputs.oat > tvmcg then wetFlexAdjustmentFactorsAboveTvmcg
            else wetFlexAdjustmentFactorsAtOrBelowTvmcg) inputs.conf) params.headwind
  let (f0, f1, f2, f3) := factors
  let lengthAltCoef := params.adjustedTora - params.pressureAlt / 20
  min 0 (min (f0 * lengthAltCoef + f1) (f2 * lengthAltCoef + f3))

/-! ### Contaminated-runway tables (part_001 lines 1394-2229).
The V-speed vector tables of each condition belong to the missing Part 9 and
are not needed by any claim; the weight-correction, MTOW and minimum-weight
tables are embedded in full. -/

/-- `weightCorrectionContaminated6mmWater` (part_001 line 1394). -/
def weightCorrectionContaminated6mmWater : ℕ → List (ℚ × ℚ)
  | 1 => [(97200, 2500), (93312, 3000), (68040, 3500), (44064, 4000)]
  | 2 => [(112752, 2000), (112752, 2500), (100440, 3000)]
  | 3 => [(121176, 1750), (121176, 2000), (112752, 2500)]
  | _ => []

/-- `minCorrectedTowContaminated6mmWater` (part_001 line 1414). -/
def minCorrectedTowContaminated6mmWater : ℕ → ℚ
  | 1 => 374544 | 2 => 368064 | 3 => 370656 | _ => 0

/-- `mtowContaminated6mmWater` (part_001 line 1424). -/
def mtowContaminated6mmWater : ℕ → List (ℚ × ℚ)
  | 1 => [(308448, 374544), (343440, 382320), (393336, 393336), (512000, 512000)]
  | 2 => [(308448, 368064), (382320, 382320), (512000, 512000)]
  | 3 => [(308448, 370656), (362880, 382320), (387504, 387504), (512000, 512000)]
  | _ => []

/-- `weightCorrectionContaminated13mmWater` (part_001 line 1487). -/
def weightCorrectionContaminated13mmWater : ℕ → List (ℚ × ℚ)
  | 1 => [(121176, 2500), (113400, 3000), (88128, 3500), (62856, 4000)]
  | 2 => [(136080, 2000), (134784, 2500), (119880, 3000)]
  | 3 => [(141912, 1750), (141912, 2000), (132840, 2500)]
  | _ => []

/-- `minCorrectedTowContaminated13mmWater` (part_001 line 1506). -/
def minCorrectedTowContaminated13mmWater : ℕ → ℚ
  | 1 => 345384 | 2 => 345384 | 3 => 366120 | _ => 0

/-- `mtowContaminated13mmWater` (part_001 line 1512). -/
def mtowContaminated13mmWater : ℕ → List (ℚ × ℚ)
  | 1 => [(308448, 345384), (330480, 349920), (355104, 355104), (512000, 512000)]
  | 2 => [(308448, 345384), (330480, 349920), (354456, 354456), (512000, 512000)]
  | 3 => [(308448, 366120), (382320, 382320), (512000, 512000)]
  | _ => []

/-- `weightCorrectionContaminated6mmSlush` (part_001 line 1571). -/
def weightCorrectionContaminated6mmSlush : ℕ → List (ℚ × ℚ)
  | 1 => [(99792, 2500), (92016, 3000), (67392, 3500), (42768, 4000)]
  | 2 => [(115992, 2000), (115344, 2500), (100440, 3000)]
  | 3 => [(124416, 1750), (123120, 2000), (111456, 2500)]
  | _ => []

/-- `minCorrectedTowContaminated6mmSlush` (part_001 line 1590). -/
def minCorrectedTowContaminated6mmSlush : ℕ → ℚ
  | 1 => 370656 | 2 => 364176 | 3 => 345384 | _ => 0

/-- `mtowContaminated6mmSlush` (part_001 line 1596). -/
def mtowContaminated6mmSlush : ℕ → List (ℚ × ℚ)
  | 1 => [(308448, 370656), (362880, 382320), (387504, 387504), (512000, 512000)]
  | 2 => [(308448, 364176), (362880, 382320), (512000, 512000)]
  | 3 => [(308448, 345384), (330480, 349920), (355104, 355104), (512000, 512000)]
  | _ => []

/-- `weightCorrectionContaminated13mmSlush` (part_001 line 1656). -/
def weightCorrectionContaminated13mmSlush : ℕ → List (ℚ × ℚ)
  | 1 => [(125712, 2500), (115344, 3000), (88776, 3500), (64800, 4000)]
  | 2 => [(142560, 2000), (139968, 2500), (121824, 3000)]
  | 3 => [(117936, 1750), (146448, 2000), (135432, 2500)]
  | _ => []

/-- `minCorrectedTowContaminated13mmSlush` (part_001 line 1675). -/
def minCorrectedTowContaminated13mmSlush : ℕ → ℚ
  | 1 => 340848 | 2 => 336960 | 3 => 336960 | _ => 0

/-- `mtowContaminated13mmSlush` (part_001 line 1681). -/
def mtowContaminated13mmSlush : ℕ → List (ℚ × ℚ)
  | 1 => [(308448, 340848), (349920, 349920), (512000, 512000)]
  | 2 => [(308448, 336960), (344736, 344736), (512000, 512000)]
  | 3 => [(308448, 336960), (344736, 344736), (512000, 512000)]
  | _ => []

/-- `weightCorrectionContaminatedCompactedSnow` (part_001 line 1738). -/
def weightCorrectionContaminatedCompactedSnow : ℕ → List (ℚ × ℚ)
  | 1 => [(66096, 2500), (58320, 3000), (30456, 3500), (19440, 4000)]
  | 2 => [(86184, 2000), (82296, 2500), (66744, 3000)]
  | 3 => [(97848, 1750), (95904, 2000), (82296, 2500)]
  | _ => []

/-- `minCorrectedTowContaminatedCompactedSnow` (part_001 line 1757). -/
def minCorrectedTowContaminatedCompactedSnow : ℕ → ℚ
  | 1 => 370656 | 2 => 364176 | 3 => 366120 | _ => 0

/-- `mtowContaminatedCompactedSnow` (part_001 line 1763). -/
def mtowContaminatedCompactedSnow : ℕ → List (ℚ × ℚ)
  | 1 => [(308448, 370656), (362880, 382320), (387504, 387504), (512000, 512000)]
  | 2 => [(308448, 364176), (377784, 377784), (512000, 512000)]
  | 3 => [(308448, 366120), (382320, 382320), (512000, 512000)]
  | _ => []

/-- `weightCorrectionContaminated5mmWetSnow` (part_001 line 1821). -/
def weightCorrectionContaminated5mmWetSnow : ℕ → List (ℚ × ℚ)
  | 1 => [(73872, 2500), (68040, 3000), (38880, 3500), (19440, 4000)]
  | 2 => [(97200, 2000), (92016, 2500), (77112, 3000)]
  | 3 => [(113400, 1750), (110808, 2000), (92664, 2500)]
  | _ => []

/-- `minCorrectedTowContaminated5mmWetSnow` (part_001 line 1840). -/
def minCorrectedTowContaminated5mmWetSnow : ℕ → ℚ
  | 1 => 366120 | 2 => 371952 | 3 => 374544 | _ => 0

/-- `mtowContaminated5mmWetSnow` (part_001 line 1846). -/
def mtowContaminated5mmWetSnow : ℕ → List (ℚ × ℚ)
  | 1 => [(308448, 366120), (382320, 382320), (512000, 512000)]
  | 2 => [(308448, 371952), (362880, 382320), (388800, 388800), (512000, 512000)]
  | 3 => [(308448, 374544), (343440, 382320), (393336, 393336), (512000, 512000)]
  | _ => []

/-- `weightCorrectionContaminated15mmWetSnow` (part_001 line 1905). -/
def weightCorrectionContaminated15mmWetSnow : ℕ → List (ℚ × ℚ)
  | 1 => [(105624, 2500), (96552, 3000), (70632, 3500), (46008, 4000)]
  | 2 => [(123120, 2000), (121176, 2500), (104328, 3000)]
  | 3 => [(130896, 1750), (129600, 2000), (117288, 2500)]
  | _ => []

/-- `minCorrectedTowContaminated15mmWetSnow` (part_001 line 1924). -/
def minCorrectedTowContaminated15mmWetSnow : ℕ → ℚ
  | 1 => 349272 | 2 => 345384 | 3 => 345384 | _ => 0

/-- `mtowContaminated15mmWetSnow` (part_001 line 1930). -/
def mtowContaminated15mmWetSnow : ℕ → List (ℚ × ℚ)
  | 1 => [(308448, 349272), (311040, 349920), (360936, 360936), (512000, 512000)]
  | 2 => [(308448, 345384), (330480, 349920), (354456, 354456), (512000, 512000)]
  | 3 => [(308448, 345384), (330480, 349920), (355104, 355104), (512000, 512000)]
  | _ => []

/-- `weightCorrectionContaminated30mmWetSnow` (part_001 line 1991). -/
def weightCorrectionContaminated30mmWetSnow : ℕ → List (ℚ × ℚ)
  | 1 => [(149040, 2500), (136728, 3000), (124416, 3500), (124416, 4000)]
  | 2 => [(160056, 2000), (158112, 2500), (145152, 3000)]
  | 3 => [(163296, 1750), (162000, 2000), (153576, 2500)]
  | _ => []

/-- `minCorrectedTowContaminated30mmWetSnow` (part_001 line 2010). -/
def minCorrectedTowContaminated30mmWetSnow : ℕ → ℚ
  | 1 => 311688 | 2 => 308448 | 3 => 308448 | _ => 0

/-- `mtowContaminated30mmWetSnow` (part_001 line 2016). -/
def mtowContaminated30mmWetSnow : ℕ → List (ℚ × ℚ)
  | 1 => [(308448, 311688), (313104, 313104), (512000, 512000)]
  | 2 => [(308448, 308448), (512000, 512000)]
  | 3 => [(308448, 308448), (512000, 512000)]
  | _ => []

/-- `weightCorrectionContaminated10mmDrySnow` (part_001 line 2070). -/
def weightCorrectionContaminated10mmDrySnow : ℕ → List (ℚ × ℚ)
  | 1 => [(73872, 2500), (68040, 3000), (38880, 3500), (19440, 4000)]
  | 2 => [(97200, 2000), (92016, 2500), (76464, 3000)]
  | 3 => [(113400, 1750), (110808, 2000), (92664, 2500)]
  | _ => []

/-- `minCorrectedTowContaminated10mmDrySnow` (part_001 line 2089). -/
def minCorrectedTowContaminated10mmDrySnow : ℕ → ℚ
  | 1 => 366120 | 2 => 371952 | 3 => 374544 | _ => 0

/-- `mtowContaminated10mmDrySnow` (part_001 line 2095). -/
def mtowContaminated10mmDrySnow : ℕ → List (ℚ × ℚ)
  | 1 => [(308448, 366120), (382320, 382320), (512000, 512000)]
  | 2 => [(308448, 371952), (362880, 382320), (388800, 388800), (512000, 512000)]
  | 3 => [(308448, 374544), (343440, 382320), (393336, 393336), (512000, 512000)]
  | _ => []

/-- `weightCorrectionContaminated100mmDrySnow` (part_001 line 2154). -/
def weightCorrectionContaminated100mmDrySnow : ℕ → List (ℚ × ℚ)
  | 1 => [(125064, 2500), (127008, 3000), (113400, 3500), (102384, 4000)]
  | 2 => [(136728, 2000), (142560, 2500), (138672, 3000)]
  | 3 => [(143208, 1750), (144504, 2000), (141264, 2500)]
  | _ => []

/-- `minCorrectedTowContaminated100mmDrySnow` (part_001 line 2173). -/
def minCorrectedTowContaminated100mmDrySnow : ℕ → ℚ
  | 1 => 315576 | 2 => 313104 | 3 => 315576 | _ => 0

/-- `mtowContaminated100mmDrySnow` (part_001 line 2179). -/
def mtowContaminated100mmDrySnow : ℕ → List (ℚ × ℚ)
  | 1 => [(308448, 315576), (317520, 317520), (512000, 512000)]
  | 2 => [(308448, 311688), (313104, 313104), (512000, 512000)]
  | 3 => [(308448, 315576), (317520, 317520), (512000, 512000)]
  | _ => []

/-- The table triple (weight correction, MTOW map, minimum corrected weight)
selected by the switch of `calculateContaminatedMtow` (part_001 lines
3079-3132); `none` for the dry/wet conditions, where the source throws. -/
def contaminatedTables (c : RunwayCondition) :
    Option ((ℕ → List (ℚ × ℚ)) × (ℕ → List (ℚ × ℚ)) × (ℕ → ℚ)) :=
  match c with
  | .contaminated6mmWater =>
    some (weightCorrectionContaminated6mmWater, mtowContaminated6mmWater, minCorrectedTowContaminated6mmWater)
  | .contaminated13mmWater =>
    some (weightCorrectionContaminated13mmWater, mtowContaminated13mmWater, minCorrectedTowContaminated13mmWater)
  | .contaminated6mmSlush =>
    some (weightCorrectionContaminated6mmSlush, mtowContaminated6mmSlush, minCorrectedTowContaminated6mmSlush)
  | .contaminated13mmSlush =>
    some (weightCorrectionContaminated13mmSlush, mtowContaminated13mmSlush, minCorrectedTowContaminated13mmSlush)
  | .contaminatedCompactedSnow =>
    some (weightCorrectionContaminatedCompactedSnow, mtowContaminatedCompactedSnow, minCorrectedTowContaminatedCompactedSnow)
  | .contaminated5mmWetSnow =>
    some (weightCorrectionContaminated5mmWetSnow, mtowContaminated5mmWetSnow, minCorrectedTowContaminated5mmWetSnow)
  | .contaminated15mmWetSnow =>
    some (weightCorrectionContaminated15mmWetSnow, mtowContaminated15mmWetSnow, minCorrectedTowContaminated15mmWetSnow)
  | .contaminated30mmWetSnow =>
    some (weightCorrectionContaminated30mmWetSnow, mtowContaminated30mmWetSnow, minCorrectedTowContaminated30mmWetSnow)
  | .contaminated10mmDrySnow =>
    some (weightCorrectionContaminated10mmDrySnow, mtowContaminated10mmDrySnow, minCorrectedTowContaminated10mmDrySnow)
  | .contaminated100mmDrySnow =>
    some (weightCorrectionContaminated100mmDrySnow, mtowContaminated100mmDrySnow, minCorrectedTowContaminated100mmDrySnow)
  | .dry => none
  | .wet => none

/-- `calculateContaminatedMtow` (part_001 lines 3067-3143): subtract the
runway-length weight correction from the dry MTOW, map the corrected weight
through the per-condition MTOW table, and flag `TooLight` when the corrected
weight is below the per-condition minimum.  Returns (mtow, tooLight). -/
def calculateContaminatedMtow (inputs : TakeoffInputs) (params : TakeoffParams)
    (dryMtow : ℚ) : ℚ × Bool :=
  match contaminatedTables inputs.runwayCondition with
  | some (correctionFactors, mtowFactors, minCorrectedWeight) =>
    let correctedWeight := dryMtow - lerp1 (correctionFactors inputs.conf) params.adjustedTora
    let mtow := lerp1 (mtowFactors inputs.conf) correctedWeight
    (mtow, decide (correctedWeight < minCorrectedWeight inputs.conf))
  | none => (dryMtow, false)

/-- `isContaminated` (part_001 line 2323). -/
def isContaminated (c : RunwayCondition) : Bool :=
  c ≠ RunwayCondition.dry && c ≠ RunwayCondition.wet

/-- The `mtow` local of `calculateTakeoffPerformance` before the structural
cap (part_001 lines 2405-2425): dry MTOW, wet-adjusted MTOW (note the
subtraction of the non-positive `wetMtowAdjustment`), or contaminated MTOW. -/
def mtowOf (inputs : TakeoffInputs) (params : TakeoffParams) : ℚ :=
  let dryMtow := dryMtowOf inputs params
  match inputs.runwayCondition with
  | .dry => dryMtow
  | .wet => dryMtow - wetMtowAdjustment inputs params (calculateTvmcg inputs params)
  | _ => (calculateContaminatedMtow inputs params dryMtow).1

/-- The `TooLight` flag produced by the contaminated branch (part_001 lines
3137-3140); `false` on dry/wet runways. -/
def tooLightFlag (inputs : TakeoffInputs) (params : TakeoffParams) : Bool :=
  match inputs.runwayCondition with
  | .dry => false
  | .wet => false
  | _ => (calculateContaminatedMtow inputs params (dryMtowOf inputs params)).2

/-- `result.mtow` (part_001 line 2427): the condition-specific MTOW capped at
the structural MTOW of 512 000 kg. -/
def resultMtowOf (inputs : TakeoffInputs) (params : TakeoffParams) : ℚ :=
  min (mtowOf inputs params) 512000

/-- `applyForwardCgWeightCorrection` (part_001 lines 2429-2431). -/
def applyForwardCgWeightCorrection (inputs : TakeoffInputs) (params : TakeoffParams) : Bool :=
  inputs.forwardCg &&
    (oatLimitingFactor inputs params = .runway || oatLimitingFactor inputs params = .vmcg)

/-- The forward-CG-adjusted MTOW compared against the TOW (part_001 lines
2434-2439): the **uncapped** `mtow` local, increased by
`max(0, cg0·mtow + cg1)` when the forward-CG weight correction applies. -/
def adjMtowOf (inputs : TakeoffInputs) (params : TakeoffParams) : ℚ :=
  let mtow := mtowOf inputs params
  if applyForwardCgWeightCorrection inputs params then
    mtow + max 0 ((cgFactors inputs.conf).1 * mtow + (cgFactors inputs.conf).2)
  else mtow

/-! ### Flex-temperature search (part_001 lines 3149-3354) -/

/-- `calculateFlexTow` (part_001 lines 3245-3354): candidate limit TOW at
temperature `t` for the given factor, `altLimit − ΔT(t) − ΔW(t)` (finite
domain; the source value is NaN when `t > tFlexMax`, handled in
`flexScan`). -/
def calculateFlexTow (inputs : TakeoffInputs) (params : TakeoffParams)
    (limitingFactor : LimitingFactor) (altLimit : ℚ) (t : ℚ) : ℚ :=
  let conf := inputs.conf
  let at' := params.adjustedTora
  match limitingFactor with
  | .runway =>
    altLimit - calculateRunwayTempDelta t conf params.tRef params.tMax params.tFlexMax at' params.pressureAlt params.isaTemp
      - calculateRunwayWindDelta t conf params.isaTemp params.tRef params.tMax params.tFlexMax at' params.headwind
  | .secondSegment =>
    altLimit - calculateSecondSegmentTempDelta t conf params.tRef params.tMax params.tFlexMax at' params.pressureAlt params.isaTemp
      - calculateSecondSegmentWindDelta t conf params.isaTemp params.tRef params.tMax params.tFlexMax at' params.headwind
  | .brakeEnergy =>
    altLimit - calculateBrakeEnergyTempDelta t conf params.tRef params.tMax params.tFlexMax at' params.pressureAlt params.isaTemp
      - calculateBrakeEnergyWindDelta t conf params.isaTemp params.tRef params.tMax params.tFlexMax at' params.headwind
  | .vmcg =>
    altLimit - calculateVmcgTempDelta t conf params.tRef params.tMax params.tFlexMax at' params.pressureAlt params.isaTemp
      - calculateVmcgWindDelta t conf params.isaTemp params.tRef params.tMax params.tFlexMax at' params.headwind

/-- The scan loop of `calculateFlexTemp` (part_001 lines 3198-3205):
`flexScan … iterFrom n` is the recorded (temperature, factor) pair after the
first `n` iterations `t = iterFrom, iterFrom+1, …, iterFrom+(n−1)`; the last
succeeding iteration wins.  The conjunct `t ≤ params.tFlexMax` encodes the
NaN guard of the kernels: for `t > tFlexMax` both candidate TOWs are NaN in
the source and the JS comparison `tow <= Math.min(NaN, NaN)` is false. -/
def flexScan (inputs : TakeoffInputs) (params : TakeoffParams)
    (fromLF toLF : LimitingFactor) (fromAlt toAlt iterFrom : ℚ) :
    ℕ → Option (ℚ × LimitingFactor)
  | 0 => none
  | k + 1 =>
    let t := iterFrom + k
    let fromLimitTow := calculateFlexTow inputs params fromLF fromAlt t
    let toLimitTow := calculateFlexTow inputs params toLF toAlt t
    if t ≤ params.tFlexMax ∧ inputs.tow ≤ min fromLimitTow toLimitTow then
      some (t, if fromLimitTow ≤ toLimitTow then fromLF else toLF)
    else flexScan inputs params fromLF toLF fromAlt toAlt iterFrom k

/-- `calculateFlexTemp` (part_001 lines 3149-3243): bracket selection, integer
scan, anti-ice/packs decrements, cap at tFlexMax, truncation, wet adjustment,
and the emit-only-if-above-OAT guard.  Returns the emitted (flex, governing
factor), or `none`. -/
def calculateFlexTemp (inputs : TakeoffInputs) (params : TakeoffParams) (tvmcg : ℚ) :
    Option (ℚ × LimitingFactor) :=
  let limits := fun f => calculateWeightLimits f inputs params
  let tRefLF := tRefLimitingFactor inputs params
  let tMaxLF := tMaxLimitingFactor inputs params
  let tFlexMaxLF := tFlexMaxLimitingFactor inputs params
  if inputs.tow < (limits tRefLF).tRefLimit then
    let sel : ℚ × ℚ × LimitingFactor × LimitingFactor :=
      if inputs.tow > (limits tMaxLF).tMaxLimitNoBleed then
        (params.tRef, params.tMax, tRefLF, tMaxLF)
      else if inputs.tow > (limits tFlexMaxLF).tFlexMaxLimitNoBleed then
        (params.tMax, params.tFlexMax, tMaxLF, tFlexMaxLF)
      else
        (params.tFlexMax, params.tFlexMax + 8, tFlexMaxLF, tFlexMaxLF)
    let iterFrom := sel.1
    let iterTo := sel.2.1
    let fromLF := sel.2.2.1
    let toLF := sel.2.2.2
    let steps : ℕ := if iterFrom ≤ iterTo then (⌊iterTo - iterFrom⌋ + 1).toNat else 0
    match flexScan inputs params fromLF toLF (limits fromLF).altLimit (limits toLF).altLimit iterFrom steps with
    | some (t, lf) =>
      let afterAntiIce :=
        match inputs.antiIce with
        | .engine => t - 2
        | .engineWing => t - 6
        | .off => t
      let afterPacks := if inputs.packs then afterAntiIce - 2 else afterAntiIce
      let capped := min afterPacks params.tFlexMax
      let truncated : ℤ := jtrunc capped
      let final : ℚ :=
        if inputs.runwayCondition = .wet then
          (truncated : ℚ) - wetFlexAdjustment inputs params tvmcg
        else (truncated : ℚ)
      if final > inputs.oat then some (final, lf) else none
    | none => none
  else none

/-! ### Top-level calculation (part_001 lines 2332-2491) -/

/-- The slice of `TakeoffPerformanceResult` the claims are about. -/
structure TakeoffResult where
  error : TakeoffPerfomanceError
  mtow : Option ℚ
  flex : Option ℚ

/-- Modelled from the spec: the V-speed stage of the calculator.  Part 9 of
src/unnamed/part_001 ("V-speed calculations and utility methods") is missing
from the repository snapshot; per spec §4.8/§7 it computes the V speeds and
may set `result.error` (to `VmcgVmcaLimits`, `MaximumTireSpeed` or
`InvalidData`), never to `TooHeavy`.  The embedding therefore takes the error
assignment of that stage as an oracle: `some e` means the stage assigned `e`
to `result.error`, `none` means it left the error untouched. -/
def VSpeedErrOracle : Type := TakeoffInputs → TakeoffParams → Option TakeoffPerfomanceError

/-- `calculateTakeoffPerformance` (part_001 lines 2332-2491) for calls with
`forceToga = false` (the shape of the recursive call the source makes):
validation, limit solving, MTOW, the TooHeavy gate, flex on non-contaminated
runways, and the V-speed stage (`vErr`). -/
def calcNoToga (vErr : VSpeedErrOracle) (inputs : TakeoffInputs) (pressureAlt : ℚ) : TakeoffResult :=
  let params := mkParams inputs pressureAlt
  let e0 := checkInputs inputs params
  if e0 = .none then
    let tvmcg := calculateTvmcg inputs params
    if adjMtowOf inputs params ≥ inputs.tow then
      let flex :=
        if isContaminated inputs.runwayCondition then none
        else (calculateFlexTemp inputs params tvmcg).map Prod.fst
      let prior := if tooLightFlag inputs params then TakeoffPerfomanceError.tooLight else .none
      { error := (vErr inputs params).getD prior, mtow := some (resultMtowOf inputs params), flex := flex }
    else
      { error := .tooHeavy, mtow := some (resultMtowOf inputs params), flex := none }
  else { error := e0, mtow := none, flex := none }

/-- `calculateTakeoffPerformance` (part_001 lines 2332-2491).  For
`forceToga = true` the source re-enters itself with wind −15 kt and
`forceToga = false`; if that inner call succeeds its speeds are copied and the
V-speed stage is skipped (the outer error keeps its prior value), otherwise
the outer V-speed stage runs.  No flex is computed with `forceToga`. -/
def calculateTakeoffPerformance (vErr : VSpeedErrOracle) (inputs : TakeoffInputs)
    (pressureAlt : ℚ) : TakeoffResult :=
  if inputs.forceToga then
    let params := mkParams inputs pressureAlt
    let e0 := checkInputs inputs params
    if e0 = .none then
      if adjMtowOf inputs params ≥ inputs.tow then
        let tailwindResult := calcNoToga vErr { inputs with wind := -15, forceToga := false } pressureAlt
        let prior := if tooLightFlag inputs params then TakeoffPerfomanceError.tooLight else .none
        let err := if tailwindResult.error = .none then prior else (vErr inputs params).getD prior
        { error := err, mtow := some (resultMtowOf inputs params), flex := none }
      else
        { error := .tooHeavy, mtow := some (resultMtowOf inputs params), flex := none }
    else { error := e0, mtow := none, flex := none }
  else calcNoToga vErr inputs pressureAlt

/-! ## V-speed reconciler (src/fbw-a380x/.../a380x_takeoff.ts, lines 302-387
and 1141-1194).  The minima tables below are the ones of that file (they
differ from the +25 kt tables of part_001, which no claim uses). -/

/-- `minimumV1Vmc` (a380x_takeoff.ts line 303): kcas keyed by pressure alt. -/
def minimumV1Vmc : List (ℚ × ℚ) :=
  [(122, -2000), (121, 0), (121, 2000), (120, 3000), (120, 4000), (118, 6000),
   (116, 8000), (115, 9200)]

/-- `minimumVrVmc` (a380x_takeoff.ts line 316). -/
def minimumVrVmc : List (ℚ × ℚ) :=
  [(123, -2000), (122, 0), (122, 3000), (121, 4000), (120, 6000), (117, 8000), (116, 9200)]

/-- `minimumV2Vmc` (a380x_takeoff.ts line 328). -/
def minimumV2Vmc : ℕ → List (ℚ × ℚ)
  | 1 => [(127, -2000), (126, 0), (126, 1000), (125, 2000), (125, 3000), (124, 4000),
          (123, 6000), (120, 8000), (118, 9200)]
  | 2 => [(127, -2000), (126, 0), (126, 1000), (125, 2000), (125, 3000), (124, 4000),
          (123, 6000), (120, 8000), (118, 9200)]
  | 3 => [(126, -2000), (125, 0), (125, 1000), (124, 2000), (124, 3000), (123, 4000),
          (122, 6000), (119, 8000), (117, 9200)]
  | _ => []

/-- `minimumV2Vmu` (a380x_takeoff.ts line 366), keyed by takeoff weight.  The
source table is 2-D on (pressure altitude, weight) but carries a single
pressure-altitude breakpoint (−2000 ft); per the lookup contract of spec §4.1
the missing dimension clamps, so the lookup reduces to this 1-D table on the
weight. -/
def minimumV2Vmu : ℕ → List (ℚ × ℚ)
  | 1 => [(127, 300000), (132, 400000), (137, 500000), (142, 512000)]
  | 2 => [(127, 300000), (132, 400000), (137, 500000), (142, 512000)]
  | 3 => [(126, 300000), (132, 400000), (137, 500000), (142, 512000)]
  | _ => []

/-- First reconciliation block of `reconcileVSpeeds` (a380x_takeoff.ts lines
1167-1172): if Vr exceeds V2, lower Vr to V2, flagging `VmcgVmcaLimits` when
that drops Vr below its VMC floor.  Returns (new Vr, error assignment). -/
def reconcileVrV2 (vRCorrected v2Corrected minVrVmc' : ℤ) : ℤ × Option TakeoffPerfomanceError :=
  if vRCorrected > v2Corrected then
    (v2Corrected, if v2Corrected < minVrVmc' then some .vmcgVmcaLimits else none)
  else (vRCorrected, none)

/-- Tire-speed block of `reconcileVSpeeds` (a380x_takeoff.ts lines
1174-1184): with the 195 kt tire-speed cap, if V2 > 195 then either flag
`MaximumTireSpeed` (Vr also above 195), or lower Vr to
`Math.trunc(195 − (V2 − 195))`, flagging `VmcgVmcaLimits` when that drops Vr
below its floor. -/
def reconcileTireSpeed (vRCorrected v2Corrected minVrVmc' : ℤ) : ℤ × Option TakeoffPerfomanceError :=
  if v2Corrected > 195 then
    let maxVr : ℤ := jtrunc ((195 : ℚ) - ((v2Corrected : ℚ) - 195))
    if vRCorrected > 195 then (vRCorrected, some .maximumTireSpeed)
    else if vRCorrected > maxVr then
      (maxVr, if maxVr < minVrVmc' then some .vmcgVmcaLimits else none)
    else (vRCorrected, none)
  else (vRCorrected, none)

/-- Last reconciliation block of `reconcileVSpeeds` (a380x_takeoff.ts lines
1186-1191): if V1 exceeds Vr, lower V1 to Vr, flagging `VmcgVmcaLimits` when
that drops V1 below its floor. -/
def reconcileV1Vr (v1Corrected vRCorrected minV1Vmc' : ℤ) : ℤ × Option TakeoffPerfomanceError :=
  if v1Corrected > vRCorrected then
    (vRCorrected, if vRCorrected < minV1Vmc' then some .vmcgVmcaLimits else none)
  else (v1Corrected, none)

/-- `reconcileVSpeeds` (a380x_takeoff.ts lines 1141-1194): round the speeds up
to their VMC/VMU floors, then run the three reconciliation blocks above in
order; each error assignment overwrites the previous one (the last assignment
wins, `none` = no assignment).  Returns ((V1, Vr, V2), error assignment). -/
def reconcileVSpeeds (conf : ℕ) (pressureAlt tow v1 vR v2 : ℚ) :
    (ℤ × ℤ × ℤ) × Option TakeoffPerfomanceError :=
  let minV1Vmc' : ℤ := jceil (lerp1 minimumV1Vmc pressureAlt)
  let minVrVmc' : ℤ := jceil (lerp1 minimumVrVmc pressureAlt)
  let minV2Vmc' : ℤ := jceil (lerp1 (minimumV2Vmc conf) pressureAlt)
  let minv2Vmu' : ℤ := jceil (lerp1 (minimumV2Vmu conf) tow)
  let v1c0 : ℤ := jround (max v1 (minV1Vmc' : ℚ))
  let vRc0 : ℤ := jround (max vR (minVrVmc' : ℚ))
  let v2c : ℤ := jround (max v2 (max (minV2Vmc' : ℚ) (minv2Vmu' : ℚ)))
  let stepA := reconcileVrV2 vRc0 v2c minVrVmc'
  let stepB := reconcileTireSpeed stepA.1 v2c minVrVmc'
  let stepC := reconcileV1Vr v1c0 stepB.1 minV1Vmc'
  ((stepC.1, stepB.1, v2c),
    (stepC.2).orElse (fun _ => (stepB.2).orElse (fun _ => stepA.2)))

/-! ## Landing calculator (src/fbw-a380x/.../a380x_landing.ts) -/

/-- `LandingFlapsConfig` of the fbw-sdk. -/
inductive LandingFlapsConfig where
  | full | conf3
  deriving DecidableEq, Repr

/-- `AutobrakeMode` of the fbw-sdk. -/
inductive AutobrakeMode where
  | low | medium | max
  deriving DecidableEq, Repr

/-- `LandingRunwayConditions` of the fbw-sdk. -/
inductive LandingRunwayConditions where
  | dry | good | goodMedium | medium | mediumPoor | poor
  deriving DecidableEq, Repr

/-- `LandingData` (a380x_landing.ts lines 17-28). -/
structure LandingData where
  refDistance : ℚ
  weightCorrectionAbove : ℚ
  weightCorrectionBelow : ℚ
  speedCorrection : ℚ
  altitudeCorrection : ℚ
  windCorrection : ℚ
  tempCorrection : ℚ
  slopeCorrection : ℚ
  reverserCorrection : ℚ
  overweightProcedureCorrection : ℚ

/-- `runwayConditionLandingData` (a380x_landing.ts lines 46-543): every
(condition, autobrake, flaps) record, field order as in the source
(refDistance, wAbove, wBelow, speed, altitude, wind, temp, slope, reverser,
overweight). -/
def runwayConditionLandingData :
    LandingRunwayConditions → AutobrakeMode → LandingFlapsConfig → LandingData
  | .dry, .max, .full => ⟨2000, 100, -20, 140, 80, 260, 60, 40, 0, 1820⟩
  | .dry, .max, .conf3 => ⟨2420, 100, -20, 160, 100, 260, 80, 60, -20, 2160⟩
  | .dry, .medium, .full => ⟨2660, 60, -20, 180, 100, 280, 80, 20, 0, 440⟩
  | .dry, .medium, .conf3 => ⟨3020, 80, -20, 200, 100, 280, 100, 20, 0, 460⟩
  | .dry, .low, .full => ⟨3720, 80, -20, 260, 140, 400, 140, 60, 0, 420⟩
  | .dry, .low, .conf3 => ⟨4320, 100, -20, 280, 160, 440, 140, 60, -20, 460⟩
  | .good, .max, .full => ⟨2640, 100, -20, 220, 140, 400, 120, 100, -40, 1420⟩
  | .good, .max, .conf3 => ⟨3140, 120, -40, 240, 160, 460, 140, 120, -60, 1620⟩
  | .good, .medium, .full => ⟨2760, 100, -20, 220, 140, 400, 120, 100, 0, 400⟩
  | .good, .medium, .conf3 => ⟨3260, 100, -40, 240, 160, 460, 140, 120, -40, 580⟩
  | .good, .low, .full => ⟨3720, 80, -20, 260, 140, 400, 140, 60, 0, 420⟩
  | .good, .low, .conf3 => ⟨4320, 100, -40, 280, 160, 440, 140, 60, -20, 460⟩
  | .goodMedium, .max, .full => ⟨3140, 80, -20, 200, 120, 380, 120, 140, -100, 1600⟩
  | .goodMedium, .max, .conf3 => ⟨3640, 100, -40, 200, 140, 400, 140, 160, -160, 1860⟩
  | .goodMedium, .medium, .full => ⟨3240, 80, -20, 200, 120, 380, 120, 160, -120, 400⟩
  | .goodMedium, .medium, .conf3 => ⟨3740, 80, -40, 200, 140, 400, 140, 180, -180, 560⟩
  | .goodMedium, .low, .full => ⟨3760, 80, -20, 260, 140, 420, 120, 100, -20, 420⟩
  | .goodMedium, .low, .conf3 => ⟨4340, 100, -40, 280, 160, 440, 160, 120, -60, 460⟩
  | .medium, .max, .full => ⟨3520, 80, -20, 200, 140, 440, 120, 220, -180, 1500⟩
  | .medium, .max, .conf3 => ⟨4100, 100, -40, 220, 160, 480, 140, 240, -260, 1760⟩
  | .medium, .medium, .full => ⟨3620, 80, -20, 220, 140, 460, 120, 220, -200, 400⟩
  | .medium, .medium, .conf3 => ⟨4200, 100, -40, 220, 160, 480, 140, 260, -280, 600⟩
  | .medium, .low, .full => ⟨3920, 80, -20, 260, 140, 480, 140, 200, -80, 460⟩
  | .medium, .low, .conf3 => ⟨4540, 100, -40, 280, 160, 500, 160, 220, -140, 520⟩
  | .mediumPoor, .max, .full => ⟨3860, 140, -20, 340, 220, 700, 200, 300, -220, 960⟩
  | .mediumPoor, .max, .conf3 => ⟨4760, 160, -60, 340, 280, 820, 240, 400, -300, 1160⟩
  | .mediumPoor, .medium, .full => ⟨3920, 140, -20, 320, 220, 720, 180, 300, -220, 460⟩
  | .mediumPoor, .medium, .conf3 => ⟨4800, 160, -60, 340, 280, 820, 240, 400, -320, 620⟩
  | .mediumPoor, .low, .full => ⟨4000, 140, -20, 320, 240, 720, 180, 300, -80, 440⟩
  | .mediumPoor, .low, .conf3 => ⟨4860, 160, -60, 360, 280, 800, 260, 420, -160, 580⟩
  | .poor, .max, .full => ⟨5520, 120, -40, 280, 220, 860, 220, 920, -740, 1100⟩
  | .poor, .max, .conf3 => ⟨6500, 140, -60, 300, 260, 940, 260, 1100, -980, 1320⟩
  | .poor, .medium, .full => ⟨5580, 120, -40, 260, 220, 880, 200, 940, -760, 460⟩
  | .poor, .medium, .conf3 => ⟨6560, 140, -60, 300, 260, 940, 240, 1120, -980, 620⟩
  | .poor, .low, .full => ⟨5660, 120, -40, 280, 220, 880, 220, 940, -760, 440⟩
  | .poor, .low, .conf3 => ⟨6660, 140, -60, 280, 260, 940, 240, 1120, -1000, 580⟩

/-- `calculateRequiredLandingDistance` (a380x_landing.ts lines 712-798).
Two transcendental helpers of the source are taken as arguments:
`tailWindRaw` stands for `getTailWind(windDirection, windMagnitude,
runwayHeading) = cos(π − Δheading)·magnitude` and `pressureAltOffset` for
`getPressureAltitude(pressure) = 145442.15·(1 − (pressure/1013.25)^0.190263)`;
theorems quantify over their values (0 at zero wind / standard pressure).
Everything else follows the source line by line; the reference weight is
300 t; the result is `Math.round` of the correction sum. -/
def calculateRequiredLandingDistance (weight : ℚ) (flaps : LandingFlapsConfig)
    (runwayCondition : LandingRunwayConditions) (autobrakeMode : AutobrakeMode)
    (approachSpeed tailWindRaw : ℚ) (reverseThrust : Bool)
    (altitude temperature slope : ℚ) (overweightProcedure : Bool)
    (pressureAltOffset : ℚ) (autoland : Bool) : ℤ :=
  let pressureAltitude := altitude + pressureAltOffset
  let isaTemperature := 15 - 0.0019812 * pressureAltitude
  let targetApproachSpeed :=
    if flaps = LandingFlapsConfig.full then getInterpolatedVlsTableValue (weight / 1000) confFullVls
    else getInterpolatedVlsTableValue (weight / 1000) conf3Vls
  let landingData := runwayConditionLandingData runwayCondition autobrakeMode flaps
  let tailWind := if tailWindRaw < 0 then 0 else tailWindRaw
  let weightDifference := weight / 1000 - 300
  let weightCorrection :=
    if weightDifference < 0 then landingData.weightCorrectionBelow * |weightDifference|
    else landingData.weightCorrectionAbove * weightDifference
  let speedDifference := approachSpeed - targetApproachSpeed
  let speedDifferenceClipped := if speedDifference < 0 then 0 else speedDifference
  let speedCorrection := speedDifferenceClipped / 5 * landingData.speedCorrection
  let windCorrection := tailWind / 5 * landingData.windCorrection
  let reverserCorrection := if reverseThrust then landingData.reverserCorrection * 2 else 0
  let altitudeCorrection :=
    if pressureAltitude > 0 then pressureAltitude / 1000 * landingData.altitudeCorrection else 0
  let slopeCorrection := if slope < 0 then |slope| * landingData.slopeCorrection else 0
  let temperatureCorrection :=
    if temperature > isaTemperature then
      (temperature - isaTemperature) / 10 * landingData.tempCorrection
    else 0
  let overweightProcCorrection :=
    if overweightProcedure then landingData.overweightProcedureCorrection else 0
  let autolandCorrection :=
    if autoland then (if flaps = LandingFlapsConfig.full then 560 else 500) else 0
  jround (landingData.refDistance + weightCorrection + speedCorrection + windCorrection +
    reverserCorrection + altitudeCorrection + slopeCorrection + temperatureCorrection +
    overweightProcCorrection + autolandCorrection)

/-- `calculateLandingDistances` (a380x_landing.ts lines 618-693): the safety
margin 1.15 times the required distance, for max/medium/low autobrake. -/
def calculateLandingDistances (weight : ℚ) (flaps : LandingFlapsConfig)
    (runwayCondition : LandingRunwayConditions)
    (approachSpeed tailWindRaw : ℚ) (reverseThrust : Bool)
    (altitude temperature slope : ℚ) (overweightProcedure : Bool)
    (pressureAltOffset : ℚ) (autoland : Bool) : ℚ × ℚ × ℚ :=
  (1.15 * (calculateRequiredLandingDistance weight flaps runwayCondition .max approachSpeed
      tailWindRaw reverseThrust altitude temperature slope overweightProcedure
      pressureAltOffset autoland : ℚ),
   1.15 * (calculateRequiredLandingDistance weight flaps runwayCondition .medium approachSpeed
      tailWindRaw reverseThrust altitude temperature slope overweightProcedure
      pressureAltOffset autoland : ℚ),
   1.15 * (calculateRequiredLandingDistance weight flaps runwayCondition .low approachSpeed
      tailWindRaw reverseThrust altitude temperature slope overweightProcedure
      pressureAltOffset autoland : ℚ))

/-! ## Concrete scenarios used by counterexamples and witnesses.
All use qnh = 1013.25, so the pressure altitude equals the elevation. -/

/-- A benign dry request: conf 2, 3 000 m TORA, level runway, no wind, sea
level, 15 °C, no bleeds. -/
def ce1Inputs : TakeoffInputs :=
  { tow := 400000, forwardCg := false, cg := none, conf := 2, tora := 3000, slope := 0,
    lineupAngle := .deg0, wind := 0, elevation := 0, oat := 15, antiIce := .off,
    packs := false, forceToga := false, runwayCondition := .dry }

/-- `ce1Inputs` with conf 1 and a 1 % downhill slope. -/
def ce2Inputs : TakeoffInputs := { ce1Inputs with conf := 1, slope := -1 }

/-- `ce1Inputs` on a wet runway. -/
def ce3Inputs : TakeoffInputs := { ce1Inputs with runwayCondition := .wet }

/-- A long-runway wet request: conf 2, 50 000 m TORA, 10 ft elevation. -/
def ce4Inputs : TakeoffInputs :=
  { ce1Inputs with tow := 310000, tora := 50000, elevation := 10, runwayCondition := .wet }

/-- `ce4Inputs` on a dry runway. -/
def w4Inputs : TakeoffInputs := { ce4Inputs with runwayCondition := .dry }

/-- `ce1Inputs` with TOW 400 001 kg. -/
def ce6Inputs : TakeoffInputs := { ce1Inputs with tow := 400001 }

/-! ## Helper lemmas -/

/-- Ceiling as negated floor, for evaluating `jceil` numerically. -/
theorem ceil_as_floor (q : ℚ) : ⌈q⌉ = -⌊-q⌋ := by
  rw [Int.floor_neg]; ring

/-- `Math.round` does not go below an integer lower bound. -/
theorem le_jround {n : ℤ} {x : ℚ} (h : (n : ℚ) ≤ x) : n ≤ jround x := by
  unfold jround
  rw [Int.le_floor]
  linarith

/-- `Math.round` does not exceed an integer upper bound. -/
theorem jround_le {n : ℤ} {x : ℚ} (h : x ≤ (n : ℚ)) : jround x ≤ n := by
  unfold jround
  have h2 : ⌊x + 1/2⌋ ≤ ⌊(n : ℚ) + 1/2⌋ := Int.floor_le_floor (by linarith)
  have h3 : ⌊(n : ℚ) + 1/2⌋ = n + ⌊(1/2 : ℚ)⌋ := Int.floor_int_add n (1/2)
  have h4 : ⌊(1/2 : ℚ)⌋ = 0 := by norm_num
  omega

/-- `Math.trunc` respects a nonnegative upper bound. -/
theorem jtrunc_le {x c : ℚ} (hx : x ≤ c) (hc : 0 ≤ c) : (jtrunc x : ℚ) ≤ c := by
  unfold jtrunc
  split_ifs with h
  · have h1 : ⌈x⌉ ≤ 0 := by
      rw [Int.ceil_le]
      push_cast
      linarith
    have h2 : ((⌈x⌉ : ℤ) : ℚ) ≤ 0 := by exact_mod_cast h1
    linarith
  · have h1 : ((⌊x⌋ : ℤ) : ℚ) ≤ x := Int.floor_le x
    linarith

/-- The running-minimum fold of `getLimitingFactor` returns a factor whose
weight is minimal among the four families. -/
theorem getLimitingFactor_min (w : LimitingFactor → ℚ) (g : LimitingFactor) :
    w (getLimitingFactor w) ≤ w g := by
  unfold getLimitingFactor
  cases g <;> simp only [] <;> split_ifs <;> simp_all <;> linarith

/-! ## Claims -/

/-- C9: for every finite x, macStart and nonzero macLen,
`computeCgPercentMAC(macStart + x·macLen, macStart, macLen) = 100·x`
(round-trip of the CG-to-%MAC mapping). -/
theorem computeCgPercentMAC_roundTrip (x macStart macLen : ℚ) (h : macLen ≠ 0) :
    computeCgPercentMAC (macStart + x * macLen) macStart macLen = 100 * x := by
  unfold computeCgPercentMAC
  field_simp
  ring

/-- Witness for C9 at x = 3, macStart = 27.4, macLen = 12.5. -/
theorem computeCgPercentMAC_roundTrip_witness :
    (12.5 : ℚ) ≠ 0 ∧ computeCgPercentMAC (27.4 + 3 * 12.5) 27.4 12.5 = 100 * 3 :=
  ⟨by norm_num, computeCgPercentMAC_roundTrip 3 27.4 12.5 (by norm_num)⟩

/-- C10: for every cg input, `calculateStabTrim` returns a value within
[−2.5, 3.8] that is an integer multiple of 0.1: the linear CG-to-trim map is
clamped at both ends, so out-of-range CG yields the boundary trim. -/
theorem calculateStabTrim_range (cg : ℚ) :
    -2.5 ≤ calculateStabTrim cg ∧ calculateStabTrim cg ≤ 3.8 ∧
      ∃ n : ℤ, calculateStabTrim cg = (n : ℚ) / 10 := by
  have key : ∀ v : ℚ, -5/2 ≤ v → v ≤ 19/5 →
      (-2.5 : ℚ) ≤ (jround (v / 0.1) : ℚ) * 0.1 ∧ (jround (v / 0.1) : ℚ) * 0.1 ≤ 3.8 ∧
        ∃ n : ℤ, (jround (v / 0.1) : ℚ) * 0.1 = (n : ℚ) / 10 := by
    intro v hv0 hv1
    have hva : v / (0.1 : ℚ) = 10 * v := by
      rw [div_eq_iff (by norm_num : (0.1 : ℚ) ≠ 0)]
      norm_num
      ring
    have hlo : (-25 : ℤ) ≤ jround (v / 0.1) := @le_jround (-25) (v / 0.1) (by
      rw [hva]; push_cast; linarith)
    have hhi : jround (v / 0.1) ≤ 38 := @jround_le 38 (v / 0.1) (by
      rw [hva]; push_cast; linarith)
    have hlo' : ((-25 : ℤ) : ℚ) ≤ (jround (v / 0.1) : ℚ) := by exact_mod_cast hlo
    have hhi' : ((jround (v / 0.1) : ℤ) : ℚ) ≤ ((38 : ℤ) : ℚ) := by exact_mod_cast hhi
    push_cast at hlo' hhi'
    refine ⟨by nlinarith, by nlinarith, ⟨jround (v / 0.1), by ring⟩⟩
  unfold calculateStabTrim mathUtilsRound mathUtilsLerp
  simp only [if_pos rfl, ite_true]
  apply key
  · have h0 : (0 : ℚ) ≤ min (max ((cg - 29) / (43 - 29)) 0) 1 :=
      le_min (le_max_right _ 0) (by norm_num)
    have h1 : min (max ((cg - 29) / (43 - 29)) 0) 1 ≤ 1 := min_le_right _ 1
    nlinarith
  · have h0 : (0 : ℚ) ≤ min (max ((cg - 29) / (43 - 29)) 0) 1 :=
      le_min (le_max_right _ 0) (by norm_num)
    have h1 : min (max ((cg - 29) / (43 - 29)) 0) 1 ≤ 1 := min_le_right _ 1
    nlinarith

/-- Characterization of `getInterpolatedVlsTableValue` on a 9-entry table:
clamped below 270 t; constant at the top value above the 8th breakpoint
270 + 7·30.25 = 481.75 t; linear interpolation on the open interior segments;
at an interior breakpoint it returns the value of the lower end of the
segment *below* (index i−1). -/
theorem vls_aux (tbl : List ℚ) (hlen : tbl.length = 9)
    (hhead : tbl.head?.getD 0 = tbl.getD 0 0) (hlast : tbl.getLast?.getD 0 = tbl.getD 8 0)
    (mass : ℚ) :
    (mass ≤ 270 → getInterpolatedVlsTableValue mass tbl = tbl.getD 0 0) ∧
    (270 + 7 * (121/4) < mass → getInterpolatedVlsTableValue mass tbl = tbl.getD 8 0) ∧
    (∀ i : ℕ, 1 ≤ i → i ≤ 7 → 270 + ((i : ℚ) - 1) * (121/4) < mass →
      mass < 270 + (i : ℚ) * (121/4) →
      getInterpolatedVlsTableValue mass tbl
        = tbl.getD (i-1) 0 +
          (tbl.getD i 0 - tbl.getD (i-1) 0) * (mass - (270 + ((i : ℚ) - 1) * (121/4))) / (121/4)) ∧
    (∀ i : ℕ, 1 ≤ i → i ≤ 7 → mass = 270 + (i : ℚ) * (121/4) →
      getInterpolatedVlsTableValue mass tbl = tbl.getD (i-1) 0) := by
  have hpos : (0 : ℚ) < 121/4 := by norm_num
  unfold getInterpolatedVlsTableValue
  rw [hlen]
  norm_num
  refine ⟨?_, ?_, ?_, ?_⟩
  · intro h
    have hc : jceil ((mass - 270) / (121/4)) ≤ 0 := by
      unfold jceil
      rw [Int.ceil_le]
      push_cast
      rw [div_le_iff₀ hpos]
      linarith
    rw [if_pos hc]
    simpa only [List.getD_eq_getElem?_getD] using hhead
  · intro h
    have hc : (7 : ℤ) < jceil ((mass - 270) / (121/4)) := by
      unfold jceil
      rw [Int.lt_ceil]
      push_cast
      rw [lt_div_iff₀ hpos]
      linarith
    rw [if_neg (by omega), if_pos (by omega)]
    simpa only [List.getD_eq_getElem?_getD] using hlast
  · intro i h1 h7 hlo hhi
    have hi1 : (1 : ℚ) ≤ (i : ℚ) := by exact_mod_cast h1
    have hql : ((i : ℚ) - 1) < (mass - 270) / (121/4) := by
      rw [lt_div_iff₀ hpos]
      linarith
    have hqh : (mass - 270) / (121/4) < (i : ℚ) := by
      rw [div_lt_iff₀ hpos]
      linarith
    have hceil : jceil ((mass - 270) / (121/4)) = (i : ℤ) := by
      unfold jceil
      rw [Int.ceil_eq_iff]
      refine ⟨by push_cast; linarith, by push_cast; linarith⟩
    have hfloor : jtrunc ((mass - 270) / (121/4)) = (i : ℤ) - 1 := by
      unfold jtrunc
      rw [if_neg (by intro hcon; linarith), Int.floor_eq_iff]
      refine ⟨by push_cast; linarith, by push_cast; linarith⟩
    rw [hceil, if_neg (by omega), if_neg (by omega)]
    have hidx : ((0 : ℤ) ⊔ 8 ⊓ (i : ℤ)) = (i : ℤ) := by omega
    rw [hidx]
    unfold jmod
    rw [hfloor]
    simp only [Int.toNat_natCast, List.getD_eq_getElem?_getD]
    push_cast
    ring
  · intro i h1 h7 hmass
    have hq : (mass - 270) / (121/4) = (i : ℚ) := by
      rw [hmass]
      field_simp
      ring
    have hceil : jceil ((mass - 270) / (121/4)) = (i : ℤ) := by
      unfold jceil
      rw [hq]
      exact_mod_cast Int.ceil_natCast i
    have hfloor : jtrunc ((mass - 270) / (121/4)) = (i : ℤ) := by
      unfold jtrunc
      rw [hq, if_neg (not_lt.mpr (by positivity)), Int.floor_natCast]
    rw [hceil, if_neg (by omega), if_neg (by omega)]
    have hidx : ((0 : ℤ) ⊔ 8 ⊓ (i : ℤ)) = (i : ℤ) := by omega
    rw [hidx]
    unfold jmod
    rw [hfloor]
    have hz : mass - 270 - 121/4 * ((i : ℤ) : ℚ) = 0 := by
      push_cast
      rw [hmass]
      ring
    rw [hz]
    simp only [Int.toNat_natCast, List.getD_eq_getElem?_getD, mul_zero, add_zero]

/-- C8 (amended): the target approach speed equals the piecewise-linear
interpolation of the 9-point VLS table only on the open segments strictly
below the 8th breakpoint (481.75 t); below 270 t it clamps to the first
value; above 481.75 t it already returns the final table value (so the top
segment up to 512 t is not interpolated); and at each interior breakpoint
270 + i·30.25 (i = 1…7) it returns the *previous* table value `tbl[i−1]`,
not that breakpoint's value, so the function is not continuous there. -/
theorem getInterpolatedVlsTableValue_piecewise (tbl : List ℚ)
    (htbl : tbl = confFullVls ∨ tbl = conf3Vls) (mass : ℚ) :
    (mass ≤ 270 → getInterpolatedVlsTableValue mass tbl = tbl.getD 0 0) ∧
    (270 + 7 * (121/4) < mass → getInterpolatedVlsTableValue mass tbl = tbl.getD 8 0) ∧
    (∀ i : ℕ, 1 ≤ i → i ≤ 7 → 270 + ((i : ℚ) - 1) * (121/4) < mass →
      mass < 270 + (i : ℚ) * (121/4) →
      getInterpolatedVlsTableValue mass tbl
        = tbl.getD (i-1) 0 +
          (tbl.getD i 0 - tbl.getD (i-1) 0) * (mass - (270 + ((i : ℚ) - 1) * (121/4))) / (121/4)) ∧
    (∀ i : ℕ, 1 ≤ i → i ≤ 7 → mass = 270 + (i : ℚ) * (121/4) →
      getInterpolatedVlsTableValue mass tbl = tbl.getD (i-1) 0) := by
  rcases htbl with rfl | rfl
  · exact vls_aux confFullVls rfl rfl rfl mass
  · exact vls_aux conf3Vls rfl rfl rfl mass

/-- C8 counterexample: at the interior breakpoint mass = 270 + 30.25 =
300.25 t (= 1201/4), the code returns 140 kt, while the table value at that
breakpoint — and the value of the claimed clamped piecewise-linear
interpolation `vlsSpecInterp` — is 150 kt; so the returned speed is neither
the breakpoint's table value nor the interpolation, and the function is not
continuous in the weight. -/
theorem vls_breakpoint_counterexample :
    getInterpolatedVlsTableValue (1201/4) confFullVls = 140 ∧
      confFullVls.getD 1 0 = 150 ∧ vlsSpecInterp (1201/4) confFullVls = 150 := by
  refine ⟨?_, rfl, ?_⟩
  · norm_num [getInterpolatedVlsTableValue, confFullVls, jceil, ceil_as_floor, jmod, jtrunc]
  · norm_num [vlsSpecInterp, confFullVls, lerp1, List.range_succ]

/-- Witness for C8 (amended) on the first interior segment, mass = 280 t. -/
theorem getInterpolatedVlsTableValue_piecewise_witness :
    getInterpolatedVlsTableValue 280 confFullVls
      = confFullVls.getD 0 0 +
        (confFullVls.getD 1 0 - confFullVls.getD 0 0) * (280 - (270 + ((1:ℚ) - 1) * (121/4))) / (121/4) :=
  (getInterpolatedVlsTableValue_piecewise confFullVls (Or.inl rfl) 280).2.2.1 1
    (by norm_num) (by norm_num) (by norm_num) (by norm_num)

/-- `Math.trunc` is the identity on integers. -/
theorem jtrunc_intCast (n : ℤ) : jtrunc (n : ℚ) = n := by
  unfold jtrunc
  split_ifs
  · exact Int.ceil_intCast n
  · exact Int.floor_intCast n

/-- The Vr/V2 reconciliation block never raises Vr above V2. -/
theorem reconcileVrV2_le (vR v2 m : ℤ) : (reconcileVrV2 vR v2 m).1 ≤ v2 := by
  unfold reconcileVrV2
  split_ifs <;> simp <;> omega

/-- When the Vr/V2 block assigns no error, Vr stays at or above its floor. -/
theorem reconcileVrV2_floor (vR v2 m : ℤ) (h : m ≤ vR)
    (he : (reconcileVrV2 vR v2 m).2 = Option.none) : m ≤ (reconcileVrV2 vR v2 m).1 := by
  unfold reconcileVrV2 at he ⊢
  split_ifs at he ⊢ <;> simp_all
  all_goals omega

/-- The tire-speed block never raises Vr. -/
theorem reconcileTireSpeed_le (vR v2 m : ℤ) : (reconcileTireSpeed vR v2 m).1 ≤ vR := by
  unfold reconcileTireSpeed
  have htr : jtrunc ((195 : ℚ) - ((v2 : ℚ) - 195)) = 390 - v2 := by
    rw [show (195 : ℚ) - ((v2 : ℚ) - 195) = ((390 - v2 : ℤ) : ℚ) by push_cast; ring]
    exact jtrunc_intCast _
  simp only [htr]
  split_ifs <;> simp <;> omega

/-- When the tire-speed block assigns no error, Vr stays at or above its
floor. -/
theorem reconcileTireSpeed_floor (vR v2 m : ℤ) (h : m ≤ vR)
    (he : (reconcileTireSpeed vR v2 m).2 = Option.none) : m ≤ (reconcileTireSpeed vR v2 m).1 := by
  unfold reconcileTireSpeed at he ⊢
  have htr : jtrunc ((195 : ℚ) - ((v2 : ℚ) - 195)) = 390 - v2 := by
    rw [show (195 : ℚ) - ((v2 : ℚ) - 195) = ((390 - v2 : ℤ) : ℚ) by push_cast; ring]
    exact jtrunc_intCast _
  simp only [htr] at he ⊢
  split_ifs at he ⊢ <;> simp_all
  all_goals omega

/-- The V1/Vr reconciliation block never raises V1 above Vr. -/
theorem reconcileV1Vr_le (v1 vR m : ℤ) : (reconcileV1Vr v1 vR m).1 ≤ vR := by
  unfold reconcileV1Vr
  split_ifs <;> simp <;> omega

/-- When the V1/Vr block assigns no error, V1 stays at or above its floor. -/
theorem reconcileV1Vr_floor (v1 vR m : ℤ) (h : m ≤ v1)
    (he : (reconcileV1Vr v1 vR m).2 = Option.none) : m ≤ (reconcileV1Vr v1 vR m).1 := by
  unfold reconcileV1Vr at he ⊢
  split_ifs at he ⊢ <;> simp_all
  all_goals omega

/-- A chain of overwriting error assignments is `none` only when every stage
assigned nothing. -/
theorem orElse3_none {a b c : Option TakeoffPerfomanceError}
    (h : (a.orElse (fun _ => b.orElse (fun _ => c))) = Option.none) :
    a = Option.none ∧ b = Option.none ∧ c = Option.none := by
  cases a <;> cases b <;> cases c <;> simp_all [Option.orElse]

/-- C5: for every input triple (v1, vR, v2) and every pressure
altitude/configuration/TOW, the triple returned by `reconcileVSpeeds`
satisfies V1 ≤ Vr ≤ V2; and whenever it assigns no error, each speed is at or
above its floor: the ceilings of `minimumV1Vmc`, `minimumVrVmc`, and the
maximum of the `minimumV2Vmc` and `minimumV2Vmu` ceilings. -/
theorem reconcileVSpeeds_spec (conf : ℕ) (hconf : conf = 1 ∨ conf = 2 ∨ conf = 3)
    (pressureAlt tow v1 vR v2 : ℚ) :
    ((reconcileVSpeeds conf pressureAlt tow v1 vR v2).1.1
        ≤ (reconcileVSpeeds conf pressureAlt tow v1 vR v2).1.2.1 ∧
      (reconcileVSpeeds conf pressureAlt tow v1 vR v2).1.2.1
        ≤ (reconcileVSpeeds conf pressureAlt tow v1 vR v2).1.2.2) ∧
    ((reconcileVSpeeds conf pressureAlt tow v1 vR v2).2 = Option.none →
      jceil (lerp1 minimumV1Vmc pressureAlt) ≤ (reconcileVSpeeds conf pressureAlt tow v1 vR v2).1.1 ∧
      jceil (lerp1 minimumVrVmc pressureAlt) ≤ (reconcileVSpeeds conf pressureAlt tow v1 vR v2).1.2.1 ∧
      max (jceil (lerp1 (minimumV2Vmc conf) pressureAlt)) (jceil (lerp1 (minimumV2Vmu conf) tow))
        ≤ (reconcileVSpeeds conf pressureAlt tow v1 vR v2).1.2.2) := by
  unfold reconcileVSpeeds
  generalize jceil (lerp1 minimumV1Vmc pressureAlt) = m1
  generalize jceil (lerp1 minimumVrVmc pressureAlt) = mr
  generalize jceil (lerp1 (minimumV2Vmc conf) pressureAlt) = m2c
  generalize jceil (lerp1 (minimumV2Vmu conf) tow) = m2u
  simp only []
  have hv1 : m1 ≤ jround (max v1 (m1 : ℚ)) := le_jround (le_max_right _ _)
  have hvr : mr ≤ jround (max vR (mr : ℚ)) := le_jround (le_max_right _ _)
  have hv2c : m2c ≤ jround (max v2 (max (m2c : ℚ) (m2u : ℚ))) :=
    le_jround (le_trans (le_max_left _ _) (le_max_right _ _))
  have hv2u : m2u ≤ jround (max v2 (max (m2c : ℚ) (m2u : ℚ))) :=
    le_jround (le_trans (le_max_right _ _) (le_max_right _ _))
  refine ⟨⟨reconcileV1Vr_le _ _ _,
    le_trans (reconcileTireSpeed_le _ _ _) (reconcileVrV2_le _ _ _)⟩, ?_⟩
  intro he
  obtain ⟨hc, hb, ha⟩ := orElse3_none he
  refine ⟨reconcileV1Vr_floor _ _ _ hv1 hc, ?_, max_le hv2c hv2u⟩
  exact reconcileTireSpeed_floor _ _ _ (reconcileVrV2_floor _ _ _ hvr ha) hb

/-- Witness for C5 at conf 2, sea level, 400 t, speeds (135, 140, 145). -/
theorem reconcileVSpeeds_spec_witness :
    ((2 : ℕ) = 1 ∨ (2 : ℕ) = 2 ∨ (2 : ℕ) = 3) ∧
    (((reconcileVSpeeds 2 0 400000 135 140 145).1.1
        ≤ (reconcileVSpeeds 2 0 400000 135 140 145).1.2.1 ∧
      (reconcileVSpeeds 2 0 400000 135 140 145).1.2.1
        ≤ (reconcileVSpeeds 2 0 400000 135 140 145).1.2.2) ∧
    ((reconcileVSpeeds 2 0 400000 135 140 145).2 = Option.none →
      jceil (lerp1 minimumV1Vmc 0) ≤ (reconcileVSpeeds 2 0 400000 135 140 145).1.1 ∧
      jceil (lerp1 minimumVrVmc 0) ≤ (reconcileVSpeeds 2 0 400000 135 140 145).1.2.1 ∧
      max (jceil (lerp1 (minimumV2Vmc 2) 0)) (jceil (lerp1 (minimumV2Vmu 2) 400000))
        ≤ (reconcileVSpeeds 2 0 400000 135 140 145).1.2.2)) :=
  ⟨by decide, reconcileVSpeeds_spec 2 (by decide) 0 400000 135 140 145⟩

/-- Validation guarantees a supported flap configuration: the first check of
`checkInputs` rejects every conf outside {1, 2, 3}. -/
theorem checkInputs_conf (inputs : TakeoffInputs) (params : TakeoffParams)
    (h : checkInputs inputs params = .none) :
    inputs.conf = 1 ∨ inputs.conf = 2 ∨ inputs.conf = 3 := by
  by_contra hc
  push_neg at hc
  unfold checkInputs at h
  rw [if_pos hc] at h
  simp at h

/-- Every family's slope coefficient is positive at the supported flap
configurations. -/
theorem slopeFactorFor_pos (f : LimitingFactor) (conf : ℕ)
    (h : conf = 1 ∨ conf = 2 ∨ conf = 3) : 0 < slopeFactorFor f conf := by
  rcases h with h | h | h <;> subst h <;> cases f <;>
    norm_num [slopeFactorFor, runwaySlopeFactor, secondSegmentSlopeFactor,
      brakeEnergySlopeFactor, vmcgSlopeFactor]

/-- C2 (amended): the slope correction is
`ΔS = 1000·slopeCoef[conf]·adjustedTora·slope`, subtracted from the base
limit; with a supported configuration and a positive adjusted TORA a
**downhill** (negative) slope puts the slope-corrected limit strictly *above*
the base limit for every family, and an uphill slope strictly below — the
opposite direction from the claim's "downhill reduces the allowable
weight". -/
theorem calculateWeightLimits_slope_spec (inputs : TakeoffInputs)
    (params : TakeoffParams) (f : LimitingFactor)
    (hconf : inputs.conf = 1 ∨ inputs.conf = 2 ∨ inputs.conf = 3)
    (htora : 0 < params.adjustedTora) :
    (calculateWeightLimits f inputs params).deltaSlope
        = 1000 * slopeFactorFor f inputs.conf * params.adjustedTora * inputs.slope ∧
    (calculateWeightLimits f inputs params).slopeLimit
        = (calculateWeightLimits f inputs params).baseLimit
          - (calculateWeightLimits f inputs params).deltaSlope ∧
    (inputs.slope < 0 →
      (calculateWeightLimits f inputs params).baseLimit
        < (calculateWeightLimits f inputs params).slopeLimit) ∧
    (0 < inputs.slope →
      (calculateWeightLimits f inputs params).slopeLimit
        < (calculateWeightLimits f inputs params).baseLimit) := by
  have hds : (calculateWeightLimits f inputs params).deltaSlope
      = 1000 * slopeFactorFor f inputs.conf * params.adjustedTora * inputs.slope := by
    cases f <;> rfl
  have hsl : (calculateWeightLimits f inputs params).slopeLimit
      = (calculateWeightLimits f inputs params).baseLimit
        - (calculateWeightLimits f inputs params).deltaSlope := by
    cases f <;> rfl
  have hcoef : 0 < 1000 * slopeFactorFor f inputs.conf * params.adjustedTora := by
    have hf := slopeFactorFor_pos f inputs.conf hconf
    positivity
  refine ⟨hds, hsl, ?_, ?_⟩
  · intro hneg
    have hd : (calculateWeightLimits f inputs params).deltaSlope < 0 := by
      rw [hds]; exact mul_neg_of_pos_of_neg hcoef hneg
    rw [hsl]; linarith
  · intro hpos
    have hd : 0 < (calculateWeightLimits f inputs params).deltaSlope := by
      rw [hds]; exact mul_pos hcoef hpos
    rw [hsl]; linarith

/-- C2 counterexample: `ce2Inputs` (conf 1, TORA 3 000 m, slope −1 %) passes
validation, yet for **every** limit family the slope-corrected limit is
strictly *above* the base limit (runway: 514 520 vs 512 000 kg), refuting
"the slope-corrected limit weight is strictly below the base limit". -/
theorem slope_downhill_counterexample :
    checkInputs ce2Inputs (mkParams ce2Inputs 0) = .none ∧
    ce2Inputs.slope < 0 ∧
    ∀ f, (calculateWeightLimits f ce2Inputs (mkParams ce2Inputs 0)).baseLimit
        < (calculateWeightLimits f ce2Inputs (mkParams ce2Inputs 0)).slopeLimit := by
  refine ⟨?_, by norm_num [ce2Inputs, ce1Inputs], ?_⟩
  · norm_num [checkInputs, ce2Inputs, ce1Inputs, mkParams, lineUpDistance,
      calculateIsaTemp, calculateTref, calculateTmax, calculateTflexMax,
      lerp1, tRefTable, tMaxTable]
  · intro f
    cases f <;>
      norm_num [ce2Inputs, ce1Inputs, mkParams, lineUpDistance,
        calculateWeightLimits, calculateWeightLimitsWith,
        calculateBaseRunwayPerfLimit, calculateBaseLimit, lerp1,
        runwayPerfLimitConf1, secondSegmentBaseFactor, brakeEnergyBaseFactor,
        vmcgBaseFactor, runwaySlopeFactor, secondSegmentSlopeFactor,
        brakeEnergySlopeFactor, vmcgSlopeFactor]

/-- Witness for C2 at `ce2Inputs` and the runway family: ΔS = −2 520 kg and
the slope-corrected limit 514 520 kg lies above the base limit 512 000 kg. -/
theorem calculateWeightLimits_slope_spec_witness :
    (calculateWeightLimits .runway ce2Inputs (mkParams ce2Inputs 0)).deltaSlope
        = 1000 * slopeFactorFor .runway ce2Inputs.conf
          * (mkParams ce2Inputs 0).adjustedTora * ce2Inputs.slope ∧
    (calculateWeightLimits .runway ce2Inputs (mkParams ce2Inputs 0)).slopeLimit
        = (calculateWeightLimits .runway ce2Inputs (mkParams ce2Inputs 0)).baseLimit
          - (calculateWeightLimits .runway ce2Inputs (mkParams ce2Inputs 0)).deltaSlope ∧
    (ce2Inputs.slope < 0 →
      (calculateWeightLimits .runway ce2Inputs (mkParams ce2Inputs 0)).baseLimit
        < (calculateWeightLimits .runway ce2Inputs (mkParams ce2Inputs 0)).slopeLimit) ∧
    (0 < ce2Inputs.slope →
      (calculateWeightLimits .runway ce2Inputs (mkParams ce2Inputs 0)).slopeLimit
        < (calculateWeightLimits .runway ce2Inputs (mkParams ce2Inputs 0)).baseLimit) :=
  calculateWeightLimits_slope_spec ce2Inputs (mkParams ce2Inputs 0) .runway
    (Or.inl rfl)
    (by norm_num [mkParams, ce2Inputs, ce1Inputs, lineUpDistance])

/-- C1 (amended): on a valid dry-runway request (without forced TOGA, anchors
within the kernels' domain) the returned MTOW is the structural cap of the
`oatLimit` of the factor minimising the **tRef** limit (the tRef-governing
factor), not of the OAT-governing factor: the source reads
`limits[result.tRefLimitingFactor].oatLimit` at line 2402. -/
theorem dry_mtow_spec (vErr : VSpeedErrOracle) (inputs : TakeoffInputs)
    (pressureAlt : ℚ)
    (hvalid : checkInputs inputs (mkParams inputs pressureAlt) = .none)
    (hdry : inputs.runwayCondition = .dry)
    (htoga : inputs.forceToga = false)
    (_hoat : inputs.oat ≤ (mkParams inputs pressureAlt).tFlexMax)
    (_htref : (mkParams inputs pressureAlt).tRef ≤ (mkParams inputs pressureAlt).tFlexMax)
    (_htmax : (mkParams inputs pressureAlt).tMax ≤ (mkParams inputs pressureAlt).tFlexMax) :
    (∀ g, (calculateWeightLimits (tRefLimitingFactor inputs (mkParams inputs pressureAlt))
              inputs (mkParams inputs pressureAlt)).tRefLimit
        ≤ (calculateWeightLimits g inputs (mkParams inputs pressureAlt)).tRefLimit) ∧
    (calculateTakeoffPerformance vErr inputs pressureAlt).mtow
      = some (min ((calculateWeightLimits (tRefLimitingFactor inputs (mkParams inputs pressureAlt))
                      inputs (mkParams inputs pressureAlt)).oatLimit) 512000) := by
  constructor
  · intro g
    exact getLimitingFactor_min
      (fun f => (calculateWeightLimits f inputs (mkParams inputs pressureAlt)).tRefLimit) g
  · unfold calculateTakeoffPerformance calcNoToga
    simp only [htoga, Bool.false_eq_true, if_false, hvalid, reduceIte]
    split_ifs with h <;>
      simp only [resultMtowOf, mtowOf, hdry, dryMtowOf]

/-- C1 counterexample: `ce1Inputs` passes validation on a dry runway; the
OAT-governing factor is BrakeEnergy with `oatLimit` 88 440 kg, but the
program returns mtow = 88 622 kg (the `oatLimit` of the tRef-governing
factor, SecondSegment), so mtow ≠ min(limits[oatLimitingFactor].oatLimit,
512 000). -/
theorem dry_mtow_oat_counterexample :
    checkInputs ce1Inputs (mkParams ce1Inputs 0) = .none ∧
    ce1Inputs.runwayCondition = .dry ∧
    oatLimitingFactor ce1Inputs (mkParams ce1Inputs 0) = .brakeEnergy ∧
    (calculateWeightLimits .brakeEnergy ce1Inputs (mkParams ce1Inputs 0)).oatLimit = 88440 ∧
    (calculateTakeoffPerformance (fun _ _ => none) ce1Inputs 0).mtow = some 88622 ∧
    (88622 : ℚ) ≠ min 88440 512000 := by
  refine ⟨?_, rfl, ?_, ?_, ?_, by norm_num [min_def]⟩
  · norm_num [checkInputs, ce1Inputs, mkParams, lineUpDistance,
      calculateIsaTemp, calculateTref, calculateTmax, calculateTflexMax,
      lerp1, tRefTable, tMaxTable]
  · norm_num [oatLimitingFactor, getLimitingFactor, ce1Inputs, mkParams,
      lineUpDistance, calculateIsaTemp, calculateTref, calculateTmax,
      calculateTflexMax, lerp1, tRefTable, tMaxTable,
      calculateWeightLimits, calculateWeightLimitsWith,
      calculateBaseRunwayPerfLimit, calculateBaseLimit, runwayPerfLimitConf2,
      secondSegmentBaseFactor, brakeEnergyBaseFactor, vmcgBaseFactor,
      runwaySlopeFactor, secondSegmentSlopeFactor, brakeEnergySlopeFactor,
      vmcgSlopeFactor, runwayPressureAltFactor, secondSegmentPressureAltFactor,
      brakeEnergyPressureAltFactor, vmcgPressureAltFactor,
      calculateRunwayTempDelta, calculateSecondSegmentTempDelta,
      calculateBrakeEnergyTempDelta, calculateVmcgTempDelta,
      runwayTemperatureFactor, secondSegmentTemperatureFactor,
      brakeEnergyTemperatureFactor, vmcgTemperatureFactor,
      calculateRunwayWindDelta, calculateSecondSegmentWindDelta,
      calculateBrakeEnergyWindDelta, calculateVmcgWindDelta, windDeltaWith,
      runwayHeadWindFactor, runwayTailWindFactor, secondSegmentHeadWindFactor,
      secondSegmentTailWindFactor, brakeEnergyHeadWindFactor,
      brakeEnergyTailWindFactor, vmcgHeadWindFactor, vmcgTailWindFactor,
      jsign, min_def, max_def]
    all_goals decide
  · norm_num [ce1Inputs, mkParams, lineUpDistance, calculateIsaTemp,
      calculateTref, calculateTmax, calculateTflexMax, lerp1, tRefTable,
      tMaxTable, calculateWeightLimits, calculateWeightLimitsWith,
      calculateBaseLimit, brakeEnergyBaseFactor, brakeEnergySlopeFactor,
      brakeEnergyPressureAltFactor, calculateBrakeEnergyTempDelta,
      brakeEnergyTemperatureFactor, calculateBrakeEnergyWindDelta,
      windDeltaWith, brakeEnergyHeadWindFactor, brakeEnergyTailWindFactor,
      jsign, min_def, max_def]
    all_goals decide
  · norm_num [calculateTakeoffPerformance, calcNoToga, checkInputs,
      adjMtowOf, applyForwardCgWeightCorrection, resultMtowOf, mtowOf,
      dryMtowOf, tRefLimitingFactor, getLimitingFactor, ce1Inputs, mkParams,
      lineUpDistance, calculateIsaTemp, calculateTref, calculateTmax,
      calculateTflexMax, lerp1, tRefTable, tMaxTable,
      calculateWeightLimits, calculateWeightLimitsWith,
      calculateBaseRunwayPerfLimit, calculateBaseLimit, runwayPerfLimitConf2,
      secondSegmentBaseFactor, brakeEnergyBaseFactor, vmcgBaseFactor,
      runwaySlopeFactor, secondSegmentSlopeFactor, brakeEnergySlopeFactor,
      vmcgSlopeFactor, runwayPressureAltFactor, secondSegmentPressureAltFactor,
      brakeEnergyPressureAltFactor, vmcgPressureAltFactor,
      calculateRunwayTempDelta, calculateSecondSegmentTempDelta,
      calculateBrakeEnergyTempDelta, calculateVmcgTempDelta,
      runwayTemperatureFactor, secondSegmentTemperatureFactor,
      brakeEnergyTemperatureFactor, vmcgTemperatureFactor,
      calculateRunwayWindDelta, calculateSecondSegmentWindDelta,
      calculateBrakeEnergyWindDelta, calculateVmcgWindDelta, windDeltaWith,
      runwayHeadWindFactor, runwayTailWindFactor, secondSegmentHeadWindFactor,
      secondSegmentTailWindFactor, brakeEnergyHeadWindFactor,
      brakeEnergyTailWindFactor, vmcgHeadWindFactor, vmcgTailWindFactor,
      jsign, min_def, max_def]
    all_goals simp
    all_goals norm_num [min_def]

/-- Witness for C1 at `ce1Inputs` with qnh = 1013.25 (pressure altitude 0). -/
theorem dry_mtow_spec_witness :
    (∀ g, (calculateWeightLimits (tRefLimitingFactor ce1Inputs (mkParams ce1Inputs 0))
              ce1Inputs (mkParams ce1Inputs 0)).tRefLimit
        ≤ (calculateWeightLimits g ce1Inputs (mkParams ce1Inputs 0)).tRefLimit) ∧
    (calculateTakeoffPerformance (fun _ _ => none) ce1Inputs 0).mtow
      = some (min ((calculateWeightLimits (tRefLimitingFactor ce1Inputs (mkParams ce1Inputs 0))
                      ce1Inputs (mkParams ce1Inputs 0)).oatLimit) 512000) :=
  dry_mtow_spec (fun _ _ => none) ce1Inputs 0
    (by norm_num [checkInputs, ce1Inputs, mkParams, lineUpDistance,
      calculateIsaTemp, calculateTref, calculateTmax, calculateTflexMax,
      lerp1, tRefTable, tMaxTable])
    rfl rfl
    (by norm_num [ce1Inputs, mkParams, calculateTflexMax, calculateIsaTemp])
    (by norm_num [ce1Inputs, mkParams, calculateTref, calculateTflexMax,
      calculateIsaTemp, lerp1, tRefTable])
    (by norm_num [ce1Inputs, mkParams, calculateTmax, calculateTflexMax,
      calculateIsaTemp, lerp1, tMaxTable])

/-- C3 (code bug): on the valid wet request `ce3Inputs` the wet adjustment is
clipped non-positive (−0.41 kg) as the claim says, but the source computes
`mtow = dryMtow - wetMtowAdjustment` (part_001 line 2420), *subtracting* the
non-positive adjustment: the returned wet MTOW 88 622.41 kg strictly exceeds
the dry MTOW 88 622 kg for the same inputs. -/
theorem wet_mtow_exceeds_dry_bug :
    checkInputs ce3Inputs (mkParams ce3Inputs 0) = .none ∧
    ce3Inputs.runwayCondition = .wet ∧
    wetMtowAdjustment ce3Inputs (mkParams ce3Inputs 0)
        (calculateTvmcg ce3Inputs (mkParams ce3Inputs 0)) = -(41/100) ∧
    dryMtowOf ce3Inputs (mkParams ce3Inputs 0) = 88622 ∧
    (calculateTakeoffPerformance (fun _ _ => none) ce3Inputs 0).mtow
        = some (8862241/100) ∧
    (88622 : ℚ) < 8862241/100 := by
  refine ⟨?_, rfl, ?_, ?_, ?_, by norm_num⟩
  · norm_num [checkInputs, ce3Inputs, ce1Inputs, mkParams, lineUpDistance,
      calculateIsaTemp, calculateTref, calculateTmax, calculateTflexMax,
      lerp1, tRefTable, tMaxTable]
  · norm_num [wetMtowAdjustment, calculateTvmcg, tvmcgFactors, lerpPair,
      lerp4, wetTowAdjustmentFactorsAtOrBelowTvmcg,
      wetTowAdjustmentFactorsAboveTvmcg, ce3Inputs, ce1Inputs, mkParams,
      lineUpDistance, calculateIsaTemp, calculateTref, calculateTmax,
      calculateTflexMax, lerp1, tRefTable, tMaxTable, min_def, max_def]
  · norm_num [dryMtowOf, tRefLimitingFactor, getLimitingFactor, ce3Inputs,
      ce1Inputs, mkParams, lineUpDistance, calculateIsaTemp, calculateTref,
      calculateTmax, calculateTflexMax, lerp1, tRefTable, tMaxTable,
      calculateWeightLimits, calculateWeightLimitsWith,
      calculateBaseRunwayPerfLimit, calculateBaseLimit, runwayPerfLimitConf2,
      secondSegmentBaseFactor, brakeEnergyBaseFactor, vmcgBaseFactor,
      runwaySlopeFactor, secondSegmentSlopeFactor, brakeEnergySlopeFactor,
      vmcgSlopeFactor, runwayPressureAltFactor, secondSegmentPressureAltFactor,
      brakeEnergyPressureAltFactor, vmcgPressureAltFactor,
      calculateRunwayTempDelta, calculateSecondSegmentTempDelta,
      calculateBrakeEnergyTempDelta, calculateVmcgTempDelta,
      runwayTemperatureFactor, secondSegmentTemperatureFactor,
      brakeEnergyTemperatureFactor, vmcgTemperatureFactor,
      calculateRunwayWindDelta, calculateSecondSegmentWindDelta,
      calculateBrakeEnergyWindDelta, calculateVmcgWindDelta, windDeltaWith,
      runwayHeadWindFactor, runwayTailWindFactor, secondSegmentHeadWindFactor,
      secondSegmentTailWindFactor, brakeEnergyHeadWindFactor,
      brakeEnergyTailWindFactor, vmcgHeadWindFactor, vmcgTailWindFactor,
      jsign, min_def, max_def]
    all_goals decide
  · norm_num [calculateTakeoffPerformance, calcNoToga, checkInputs,
      adjMtowOf, applyForwardCgWeightCorrection, resultMtowOf, mtowOf,
      dryMtowOf, tRefLimitingFactor, getLimitingFactor,
      wetMtowAdjustment, calculateTvmcg, tvmcgFactors, lerpPair, lerp4,
      wetTowAdjustmentFactorsAtOrBelowTvmcg, wetTowAdjustmentFactorsAboveTvmcg,
      ce3Inputs, ce1Inputs, mkParams,
      lineUpDistance, calculateIsaTemp, calculateTref, calculateTmax,
      calculateTflexMax, lerp1, tRefTable, tMaxTable,
      calculateWeightLimits, calculateWeightLimitsWith,
      calculateBaseRunwayPerfLimit, calculateBaseLimit, runwayPerfLimitConf2,
      secondSegmentBaseFactor, brakeEnergyBaseFactor, vmcgBaseFactor,
      runwaySlopeFactor, secondSegmentSlopeFactor, brakeEnergySlopeFactor,
      vmcgSlopeFactor, runwayPressureAltFactor, secondSegmentPressureAltFactor,
      brakeEnergyPressureAltFactor, vmcgPressureAltFactor,
      calculateRunwayTempDelta, calculateSecondSegmentTempDelta,
      calculateBrakeEnergyTempDelta, calculateVmcgTempDelta,
      runwayTemperatureFactor, secondSegmentTemperatureFactor,
      brakeEnergyTemperatureFactor, vmcgTemperatureFactor,
      calculateRunwayWindDelta, calculateSecondSegmentWindDelta,
      calculateBrakeEnergyWindDelta, calculateVmcgWindDelta, windDeltaWith,
      runwayHeadWindFactor, runwayTailWindFactor, secondSegmentHeadWindFactor,
      secondSegmentTailWindFactor, brakeEnergyHeadWindFactor,
      brakeEnergyTailWindFactor, vmcgHeadWindFactor, vmcgTailWindFactor,
      jsign, min_def, max_def]
    all_goals simp
    all_goals norm_num [min_def]

/-- C6: for every input passing validation, and any V-speed stage that never
assigns `TooHeavy` (per spec §7 the missing Part 9 assigns only
`VmcgVmcaLimits`, `MaximumTireSpeed` or `InvalidData`), the calculator
returns `TooHeavy` exactly when the forward-CG-adjusted MTOW is strictly
below the supplied TOW. -/
theorem tooHeavy_iff (vErr : VSpeedErrOracle) (inputs : TakeoffInputs)
    (pressureAlt : ℚ)
    (hor : ∀ i p, vErr i p ≠ some .tooHeavy)
    (hvalid : checkInputs inputs (mkParams inputs pressureAlt) = .none) :
    ((calculateTakeoffPerformance vErr inputs pressureAlt).error = .tooHeavy
      ↔ adjMtowOf inputs (mkParams inputs pressureAlt) < inputs.tow) := by
  have hne : ∀ p : TakeoffPerfomanceError, p ≠ .tooHeavy →
      (vErr inputs (mkParams inputs pressureAlt)).getD p ≠ .tooHeavy := by
    intro p hp
    cases hv : vErr inputs (mkParams inputs pressureAlt) with
    | none => simpa using hp
    | some e =>
      simp only [Option.getD_some]
      intro hEq
      exact hor inputs (mkParams inputs pressureAlt) (by rw [hv, hEq])
  unfold calculateTakeoffPerformance
  cases hb : inputs.forceToga with
  | false =>
    simp only [Bool.false_eq_true, if_false]
    unfold calcNoToga
    simp only [hvalid, reduceIte]
    by_cases h : adjMtowOf inputs (mkParams inputs pressureAlt) ≥ inputs.tow
    · rw [if_pos h]
      refine iff_of_false ?_ (not_lt.mpr h)
      dsimp only
      split_ifs <;> first | decide | exact hne _ (by decide)
    · rw [if_neg h]
      exact iff_of_true rfl (lt_of_not_ge h)
  | true =>
    simp only [reduceIte, hvalid]
    by_cases h : adjMtowOf inputs (mkParams inputs pressureAlt) ≥ inputs.tow
    · rw [if_pos h]
      refine iff_of_false ?_ (not_lt.mpr h)
      dsimp only
      split_ifs <;> first | decide | exact hne _ (by decide)
    · rw [if_neg h]
      exact iff_of_true rfl (lt_of_not_ge h)

/-- Witness for C6 at `ce6Inputs` (TOW 400 001 kg, adjusted MTOW 88 622 kg,
so the request is too heavy). -/
theorem tooHeavy_iff_witness :
    ((calculateTakeoffPerformance (fun _ _ => none) ce6Inputs 0).error
        = .tooHeavy
      ↔ adjMtowOf ce6Inputs (mkParams ce6Inputs 0) < ce6Inputs.tow) :=
  tooHeavy_iff (fun _ _ => none) ce6Inputs 0 (fun _ _ => by simp)
    (by norm_num [checkInputs, ce6Inputs, ce1Inputs, mkParams, lineUpDistance,
      calculateIsaTemp, calculateTref, calculateTmax, calculateTflexMax,
      lerp1, tRefTable, tMaxTable])

/-- Nonpositivity of the wet flex adjustment (clipped by `min 0`). -/
theorem wetFlexAdjustment_nonpos (inputs : TakeoffInputs) (params : TakeoffParams)
    (tvmcg : ℚ) : wetFlexAdjustment inputs params tvmcg ≤ 0 :=
  min_le_left _ _

/-- Case analysis on the final wet/dry flex value: dry flex is the truncated
capped temperature (an integer, at most tFlexMax when tFlexMax ≥ 0), wet flex
is that integer minus the non-positive wet flex adjustment. -/
theorem flex_final_cases (inputs : TakeoffInputs) (params : TakeoffParams)
    (tvmcg a flex : ℚ)
    (hEq : (if inputs.runwayCondition = RunwayCondition.wet
        then ((jtrunc (a ⊓ params.tFlexMax) : ℚ) - wetFlexAdjustment inputs params tvmcg)
        else (jtrunc (a ⊓ params.tFlexMax) : ℚ)) = flex) :
    (inputs.runwayCondition ≠ .wet →
      (∃ n : ℤ, flex = (n : ℚ)) ∧ (0 ≤ params.tFlexMax → flex ≤ params.tFlexMax)) ∧
    (inputs.runwayCondition = .wet →
      wetFlexAdjustment inputs params tvmcg ≤ 0 ∧
      ∃ n : ℤ, flex = (n : ℚ) - wetFlexAdjustment inputs params tvmcg ∧
        (0 ≤ params.tFlexMax → (n : ℚ) ≤ params.tFlexMax)) := by
  by_cases hw : inputs.runwayCondition = RunwayCondition.wet
  · rw [if_pos hw] at hEq
    exact ⟨fun hnw => absurd hw hnw,
      fun _ => ⟨wetFlexAdjustment_nonpos _ _ _,
        _, hEq.symm, fun htf => jtrunc_le inf_le_right htf⟩⟩
  · rw [if_neg hw] at hEq
    refine ⟨fun _ => ⟨⟨_, hEq.symm⟩, fun htf => ?_⟩, fun hw2 => absurd hw2 hw⟩
    rw [← hEq]
    exact jtrunc_le inf_le_right htf

/-- C4 (amended): an emitted flex is strictly above the OAT; on non-wet
runways it is an integer and (for non-negative tFlexMax) at most tFlexMax;
on wet runways the non-positive `wetFlexAdjustment` is subtracted **after**
the cap and the truncation, so the emitted flex is an integer minus that
adjustment — in general neither an integer nor bounded by tFlexMax. -/
theorem calculateFlexTemp_emit (inputs : TakeoffInputs) (params : TakeoffParams)
    (tvmcg flex : ℚ) (lf : LimitingFactor)
    (h : calculateFlexTemp inputs params tvmcg = some (flex, lf)) :
    inputs.oat < flex ∧
    (inputs.runwayCondition ≠ .wet →
      (∃ n : ℤ, flex = (n : ℚ)) ∧ (0 ≤ params.tFlexMax → flex ≤ params.tFlexMax)) ∧
    (inputs.runwayCondition = .wet →
      wetFlexAdjustment inputs params tvmcg ≤ 0 ∧
      ∃ n : ℤ, flex = (n : ℚ) - wetFlexAdjustment inputs params tvmcg ∧
        (0 ≤ params.tFlexMax → (n : ℚ) ≤ params.tFlexMax)) := by
  unfold calculateFlexTemp at h
  dsimp only at h
  split at h
  · split at h
    · simp only [Option.ite_none_right_eq_some, Option.some.injEq,
        Prod.mk.injEq] at h
      obtain ⟨hgt, hEq, hlf⟩ := h
      have hfc := flex_final_cases inputs params tvmcg _ flex hEq
      rw [hEq] at hgt
      exact ⟨hgt, hfc.1, hfc.2⟩
    · simp at h
  · simp at h

set_option maxHeartbeats 8000000 in
/-- C4 counterexample: on the valid wet request `ce4Inputs` the program emits
flex = 100089/2 = 50044.5 °C — not an integer, and far above
tFlexMax ≈ 73.98 °C — because the wet flex adjustment (≈ −49 999.5 here) is
subtracted after the truncation and the cap. -/
theorem flex_wet_counterexample :
    checkInputs ce4Inputs (mkParams ce4Inputs 10) = .none ∧
    calculateFlexTemp ce4Inputs (mkParams ce4Inputs 10)
        (calculateTvmcg ce4Inputs (mkParams ce4Inputs 10))
      = some (100089/2, .secondSegment) ∧
    (calculateTakeoffPerformance (fun _ _ => none) ce4Inputs 10).flex
      = some (100089/2) ∧
    (mkParams ce4Inputs 10).tFlexMax = 18495047/250000 ∧
    ¬ (∃ n : ℤ, (100089/2 : ℚ) = (n : ℚ)) ∧
    ¬ ((100089/2 : ℚ) ≤ 18495047/250000) := by
  refine ⟨?_, ?_, ?_, ?_, ?_, by norm_num⟩
  · norm_num [checkInputs, ce4Inputs, ce1Inputs, mkParams, lineUpDistance,
      calculateIsaTemp, calculateTref, calculateTmax, calculateTflexMax,
      lerp1, tRefTable, tMaxTable]
  · norm_num [calculateFlexTemp, flexScan, calculateFlexTow,
      calculateTvmcg, tvmcgFactors, lerpPair, lerp4, wetFlexAdjustment,
      wetFlexAdjustmentFactorsAtOrBelowTvmcg, wetFlexAdjustmentFactorsAboveTvmcg,
      tRefLimitingFactor, tMaxLimitingFactor, tFlexMaxLimitingFactor,
      getLimitingFactor, ce4Inputs, ce1Inputs, mkParams,
      lineUpDistance, calculateIsaTemp, calculateTref, calculateTmax,
      calculateTflexMax, lerp1, tRefTable, tMaxTable,
      calculateWeightLimits, calculateWeightLimitsWith,
      calculateBaseRunwayPerfLimit, calculateBaseLimit, runwayPerfLimitConf2,
      secondSegmentBaseFactor, brakeEnergyBaseFactor, vmcgBaseFactor,
      runwaySlopeFactor, secondSegmentSlopeFactor, brakeEnergySlopeFactor,
      vmcgSlopeFactor, runwayPressureAltFactor, secondSegmentPressureAltFactor,
      brakeEnergyPressureAltFactor, vmcgPressureAltFactor,
      calculateRunwayTempDelta, calculateSecondSegmentTempDelta,
      calculateBrakeEnergyTempDelta, calculateVmcgTempDelta,
      runwayTemperatureFactor, secondSegmentTemperatureFactor,
      brakeEnergyTemperatureFactor, vmcgTemperatureFactor,
      calculateRunwayWindDelta, calculateSecondSegmentWindDelta,
      calculateBrakeEnergyWindDelta, calculateVmcgWindDelta, windDeltaWith,
      runwayHeadWindFactor, runwayTailWindFactor, secondSegmentHeadWindFactor,
      secondSegmentTailWindFactor, brakeEnergyHeadWindFactor,
      brakeEnergyTailWindFactor, vmcgHeadWindFactor, vmcgTailWindFactor,
      jsign, jtrunc, ceil_as_floor, min_def, max_def]
    all_goals simp
    all_goals norm_num
  · norm_num [calculateTakeoffPerformance, calcNoToga, checkInputs,
      adjMtowOf, applyForwardCgWeightCorrection, resultMtowOf, mtowOf,
      dryMtowOf, isContaminated, tooLightFlag,
      wetMtowAdjustment, wetTowAdjustmentFactorsAtOrBelowTvmcg,
      wetTowAdjustmentFactorsAboveTvmcg,
      calculateFlexTemp, flexScan, calculateFlexTow,
      calculateTvmcg, tvmcgFactors, lerpPair, lerp4, wetFlexAdjustment,
      wetFlexAdjustmentFactorsAtOrBelowTvmcg, wetFlexAdjustmentFactorsAboveTvmcg,
      tRefLimitingFactor, tMaxLimitingFactor, tFlexMaxLimitingFactor,
      getLimitingFactor, ce4Inputs, ce1Inputs, mkParams,
      lineUpDistance, calculateIsaTemp, calculateTref, calculateTmax,
      calculateTflexMax, lerp1, tRefTable, tMaxTable,
      calculateWeightLimits, calculateWeightLimitsWith,
      calculateBaseRunwayPerfLimit, calculateBaseLimit, runwayPerfLimitConf2,
      secondSegmentBaseFactor, brakeEnergyBaseFactor, vmcgBaseFactor,
      runwaySlopeFactor, secondSegmentSlopeFactor, brakeEnergySlopeFactor,
      vmcgSlopeFactor, runwayPressureAltFactor, secondSegmentPressureAltFactor,
      brakeEnergyPressureAltFactor, vmcgPressureAltFactor,
      calculateRunwayTempDelta, calculateSecondSegmentTempDelta,
      calculateBrakeEnergyTempDelta, calculateVmcgTempDelta,
      runwayTemperatureFactor, secondSegmentTemperatureFactor,
      brakeEnergyTemperatureFactor, vmcgTemperatureFactor,
      calculateRunwayWindDelta, calculateSecondSegmentWindDelta,
      calculateBrakeEnergyWindDelta, calculateVmcgWindDelta, windDeltaWith,
      runwayHeadWindFactor, runwayTailWindFactor, secondSegmentHeadWindFactor,
      secondSegmentTailWindFactor, brakeEnergyHeadWindFactor,
      brakeEnergyTailWindFactor, vmcgHeadWindFactor, vmcgTailWindFactor,
      jsign, jtrunc, ceil_as_floor, min_def, max_def]
    all_goals simp
    all_goals norm_num
  · norm_num [mkParams, ce4Inputs, ce1Inputs, calculateTflexMax, calculateIsaTemp]
  · rintro ⟨n, hn⟩
    rw [eq_comm, eq_div_iff (by norm_num : (2 : ℚ) ≠ 0)] at hn
    have h2 : n * 2 = 100089 := by exact_mod_cast hn
    omega

set_option maxHeartbeats 4000000 in
/-- Witness for C4 at the valid dry request `w4Inputs`, whose emitted flex is
45 °C with governing factor SecondSegment. -/
theorem calculateFlexTemp_emit_witness :
    w4Inputs.oat < 45 ∧
    (w4Inputs.runwayCondition ≠ .wet →
      (∃ n : ℤ, (45 : ℚ) = (n : ℚ)) ∧
      (0 ≤ (mkParams w4Inputs 10).tFlexMax →
        (45 : ℚ) ≤ (mkParams w4Inputs 10).tFlexMax)) ∧
    (w4Inputs.runwayCondition = .wet →
      wetFlexAdjustment w4Inputs (mkParams w4Inputs 10) 0 ≤ 0 ∧
      ∃ n : ℤ, (45 : ℚ) = (n : ℚ) - wetFlexAdjustment w4Inputs (mkParams w4Inputs 10) 0 ∧
        (0 ≤ (mkParams w4Inputs 10).tFlexMax →
          (n : ℚ) ≤ (mkParams w4Inputs 10).tFlexMax)) :=
  calculateFlexTemp_emit w4Inputs (mkParams w4Inputs 10) 0 45 .secondSegment
    (by norm_num [calculateFlexTemp, flexScan, calculateFlexTow,
      tRefLimitingFactor, tMaxLimitingFactor, tFlexMaxLimitingFactor,
      getLimitingFactor, w4Inputs, ce4Inputs, ce1Inputs, mkParams,
      lineUpDistance, calculateIsaTemp, calculateTref, calculateTmax,
      calculateTflexMax, lerp1, tRefTable, tMaxTable,
      calculateWeightLimits, calculateWeightLimitsWith,
      calculateBaseRunwayPerfLimit, calculateBaseLimit, runwayPerfLimitConf2,
      secondSegmentBaseFactor, brakeEnergyBaseFactor, vmcgBaseFactor,
      runwaySlopeFactor, secondSegmentSlopeFactor, brakeEnergySlopeFactor,
      vmcgSlopeFactor, runwayPressureAltFactor, secondSegmentPressureAltFactor,
      brakeEnergyPressureAltFactor, vmcgPressureAltFactor,
      calculateRunwayTempDelta, calculateSecondSegmentTempDelta,
      calculateBrakeEnergyTempDelta, calculateVmcgTempDelta,
      runwayTemperatureFactor, secondSegmentTemperatureFactor,
      brakeEnergyTemperatureFactor, vmcgTemperatureFactor,
      calculateRunwayWindDelta, calculateSecondSegmentWindDelta,
      calculateBrakeEnergyWindDelta, calculateVmcgWindDelta, windDeltaWith,
      runwayHeadWindFactor, runwayTailWindFactor, secondSegmentHeadWindFactor,
      secondSegmentTailWindFactor, brakeEnergyHeadWindFactor,
      brakeEnergyTailWindFactor, vmcgHeadWindFactor, vmcgTailWindFactor,
      jsign, jtrunc, ceil_as_floor, min_def, max_def] <;>
     simp <;> norm_num)

/-- C7: each of the three landing distances is exactly 1.15 times the
corresponding unmargined required distance, and under zero correction deltas
(reference weight 300 t, approach speed at or below target, no tailwind, no
reverse, non-positive pressure altitude, temperature at or below ISA,
non-negative slope, no overweight procedure, no autoland) the required
distance is the reference distance and the margined distance equals
`round(refDistance · 1.15)`. -/
theorem calculateLandingDistances_margin
    (weight : ℚ) (flaps : LandingFlapsConfig) (cond : LandingRunwayConditions)
    (approachSpeed tailWindRaw : ℚ) (reverseThrust : Bool)
    (altitude temperature slope : ℚ) (overweightProcedure : Bool)
    (pressureAltOffset : ℚ) (autoland : Bool) :
    calculateLandingDistances weight flaps cond approachSpeed tailWindRaw reverseThrust
        altitude temperature slope overweightProcedure pressureAltOffset autoland
      = (1.15 * (calculateRequiredLandingDistance weight flaps cond .max approachSpeed
            tailWindRaw reverseThrust altitude temperature slope overweightProcedure
            pressureAltOffset autoland : ℚ),
         1.15 * (calculateRequiredLandingDistance weight flaps cond .medium approachSpeed
            tailWindRaw reverseThrust altitude temperature slope overweightProcedure
            pressureAltOffset autoland : ℚ),
         1.15 * (calculateRequiredLandingDistance weight flaps cond .low approachSpeed
            tailWindRaw reverseThrust altitude temperature slope overweightProcedure
            pressureAltOffset autoland : ℚ)) ∧
    (tailWindRaw ≤ 0 → weight = 300000 →
      approachSpeed ≤ (if flaps = LandingFlapsConfig.full
          then getInterpolatedVlsTableValue (weight / 1000) confFullVls
          else getInterpolatedVlsTableValue (weight / 1000) conf3Vls) →
      reverseThrust = false → altitude + pressureAltOffset ≤ 0 →
      temperature ≤ 15 - 0.0019812 * (altitude + pressureAltOffset) →
      0 ≤ slope → overweightProcedure = false → autoland = false →
      ∀ mode, (calculateRequiredLandingDistance weight flaps cond mode approachSpeed
            tailWindRaw reverseThrust altitude temperature slope overweightProcedure
            pressureAltOffset autoland : ℚ)
          = (runwayConditionLandingData cond mode flaps).refDistance ∧
        1.15 * ((calculateRequiredLandingDistance weight flaps cond mode approachSpeed
            tailWindRaw reverseThrust altitude temperature slope overweightProcedure
            pressureAltOffset autoland : ℚ))
          = (jround (1.15 * (runwayConditionLandingData cond mode flaps).refDistance) : ℚ)) := by
  refine ⟨rfl, ?_⟩
  intro htw hw hspeed hrev halt htemp hslope how hal mode
  subst hw hrev how hal
  have hreq : calculateRequiredLandingDistance 300000 flaps cond mode approachSpeed
      tailWindRaw false altitude temperature slope false pressureAltOffset false
      = jround ((runwayConditionLandingData cond mode flaps).refDistance) := by
    unfold calculateRequiredLandingDistance
    dsimp only
    have h1 : (if tailWindRaw < 0 then (0 : ℚ) else tailWindRaw) = 0 := by
      by_cases hx : tailWindRaw < 0
      · rw [if_pos hx]
      · rw [if_neg hx]; linarith
    have h2 : (if approachSpeed - (if flaps = LandingFlapsConfig.full
          then getInterpolatedVlsTableValue (300000 / 1000) confFullVls
          else getInterpolatedVlsTableValue (300000 / 1000) conf3Vls) < 0 then (0 : ℚ)
        else approachSpeed - (if flaps = LandingFlapsConfig.full
          then getInterpolatedVlsTableValue (300000 / 1000) confFullVls
          else getInterpolatedVlsTableValue (300000 / 1000) conf3Vls)) = 0 := by
      by_cases hx : approachSpeed - (if flaps = LandingFlapsConfig.full
          then getInterpolatedVlsTableValue (300000 / 1000) confFullVls
          else getInterpolatedVlsTableValue (300000 / 1000) conf3Vls) < 0
      · rw [if_pos hx]
      · rw [if_neg hx]
        have hs : approachSpeed - (if flaps = LandingFlapsConfig.full
            then getInterpolatedVlsTableValue (300000 / 1000) confFullVls
            else getInterpolatedVlsTableValue (300000 / 1000) conf3Vls) ≤ 0 := by
          linarith
        linarith
    rw [h1, h2, if_neg (not_lt.mpr halt), if_neg (not_lt.mpr hslope),
      if_neg (not_lt.mpr htemp)]
    norm_num
  rcases mode <;> rcases cond <;> rcases flaps <;>
    rw [hreq] <;> norm_num [runwayConditionLandingData, jround]

/-- Witness for C7: reference weight, flaps FULL, dry runway, max autobrake,
approach speed 130 kt (below the ≈149.9 kt target), standard conditions: the
required distance is the reference 2 000 m and the margined distance is
round(2 000 · 1.15) = 2 300 m. -/
theorem calculateLandingDistances_margin_witness :
    (calculateRequiredLandingDistance 300000 .full .dry .max 130 0 false 0 10 0
        false 0 false : ℚ)
      = (runwayConditionLandingData .dry .max .full).refDistance ∧
    1.15 * ((calculateRequiredLandingDistance 300000 .full .dry .max 130 0 false 0 10 0
        false 0 false : ℚ))
      = (jround (1.15 * (runwayConditionLandingData .dry .max .full).refDistance) : ℚ) :=
  (calculateLandingDistances_margin 300000 .full .dry 130 0 false 0 10 0 false 0 false).2
    (le_refl 0) rfl
    (by norm_num [getInterpolatedVlsTableValue, confFullVls, jceil,
      ceil_as_floor, jmod, jtrunc])
    rfl (by norm_num) (by norm_num) (le_refl 0) rfl rfl .max
